import Mathlib

/-!
Shallow embedding of the PowerOn repository (marc0janssen/PowerOn): the
power lifecycle command engine in `app/power_manager.py` and the
stand-alone scripts (`poweron.py`, `poweroff.py`, `poweronbymail.py`,
`poweroffbymail.py`, `poweroffdelaybymail.py`, `poweroff_change_shutdown.py`,
`poweron_extra_nodes.py`, `poweroff_extra_nodes.py`, `additional_nodes.py`).

External transports (IMAP, SMTP, sockets, pushover, wake-on-lan) are
modelled by their observable effects: the environment supplies the probe
results and mailbox contents, and every flow is embedded as a pure function
returning the list of side effects it performs (magic packets, remote
commands, reply mails, push messages, deletion marks) together with the
resulting schedule-file content and a flag recording whether the Python
code would have raised an uncaught exception at that point.
-/

namespace PowerOn

/-! ## Python string primitives -/

/-- Python `str.zfill(w)`: pad on the left with zeros, keeping a sign. -/
def zfill (w : Nat) (s : String) : String :=
  if w ≤ s.length then s
  else
    match s.toList with
    | '-' :: rest => String.mk ('-' :: (List.replicate (w - s.length) '0' ++ rest))
    | '+' :: rest => String.mk ('+' :: (List.replicate (w - s.length) '0' ++ rest))
    | l => String.mk (List.replicate (w - s.length) '0' ++ l)

/-- Split a character list at every separator, keeping empty fields
(the behaviour of Python `str.split(sep)`). -/
def splitChars (p : Char → Bool) : List Char → List (List Char)
  | [] => [[]]
  | c :: rest =>
      let r := splitChars p rest
      if p c then [] :: r
      else
        match r with
        | g :: gs => (c :: g) :: gs
        | [] => [[c]]

/-- Split a string at every character satisfying `p`, keeping empties. -/
def strSplit (p : Char → Bool) (s : String) : List String :=
  (splitChars p s.toList).map String.mk

/-- Python `str.split()` with no argument: split on whitespace runs,
dropping empty fields. Used for crontab lines (`line.split()`). -/
def pySplitWs (s : String) : List String :=
  (strSplit Char.isWhitespace s).filter (fun t => t ≠ "")

/-- Python `str.split(',')`: keeps empty fields, never returns `[]`. -/
def splitComma (s : String) : List String :=
  strSplit (fun c => c = ',') s

/-- Python `str.split('\n')` as used by the legacy scripts on file content. -/
def splitNl (s : String) : List String :=
  strSplit (fun c => c = '\n') s

/-- Python `str.splitlines()` as used by `PowerManager` (`read().splitlines()`):
like split on newline but without a trailing empty field. -/
def pySplitLinesOf (s : String) : List String :=
  if s = "" then []
  else
    let ls := splitNl s
    if s.toList.getLast? = some '\n' then ls.dropLast else ls

/-- Embeds `sep.join(parts)`. -/
def joinSep (sep : String) : List String → String
  | [] => ""
  | [x] => x
  | x :: xs => x ++ sep ++ joinSep sep xs

def joinSpace (parts : List String) : String := joinSep " " parts

def joinNl (parts : List String) : String := joinSep "\n" parts

/-- Value of a nonempty digit string. -/
def digitsVal (l : List Char) : Nat :=
  l.foldl (fun a c => a * 10 + (c.toNat - '0'.toNat)) 0

/-- Strip leading and trailing whitespace from a character list
(Python `str.strip()` as performed by `int(...)`). -/
def trimChars (l : List Char) : List Char :=
  ((l.dropWhile Char.isWhitespace).reverse.dropWhile Char.isWhitespace).reverse

/-- Python `int(str)`: optional sign and decimal digits after stripping
whitespace; `none` models the `ValueError` raised otherwise. -/
def pyInt (s : String) : Option Int :=
  match trimChars s.toList with
  | [] => none
  | '-' :: rest =>
      if rest ≠ [] ∧ rest.all Char.isDigit then some (-(digitsVal rest : Int)) else none
  | '+' :: rest =>
      if rest ≠ [] ∧ rest.all Char.isDigit then some ((digitsVal rest : Int)) else none
  | l => if l.all Char.isDigit then some ((digitsVal l : Int)) else none

/-- Does `l` start with `n` (character lists)? -/
def leadsWith : List Char → List Char → Bool
  | [], _ => true
  | _ :: _, [] => false
  | a :: as, b :: bs => a = b && leadsWith as bs

/-- Does the character list contain `needle` as a contiguous run?
Models Python `needle in hay`. -/
def hasRun (needle : List Char) : List Char → Bool
  | [] => needle.isEmpty
  | c :: rest => leadsWith needle (c :: rest) || hasRun needle rest

/-- Python `needle in hay` on strings. -/
def strContainsSub (hay needle : String) : Bool :=
  hasRun needle.toList hay.toList

/-- Python `str.lower()` (ASCII case folding suffices for the keywords). -/
def pyLower (s : String) : String := String.mk (s.toList.map Char.toLower)

/-! ## Sender extraction

the regex search for `[\w.+-]+@[\w-]+\.[\w.-]+` from the mail scripts and
`PowerManager._extract_sender`.  For this particular pattern the greedy
character-class runs allow no backtracking (`@` and `.` are outside the
classes that precede them), so leftmost search with maximal runs is an
exact implementation (over ASCII word characters). -/

def isWordChar (c : Char) : Bool := c.isAlphanum || c = '_'

def classA (c : Char) : Bool := isWordChar c || c = '.' || c = '+' || c = '-'

def classB (c : Char) : Bool := isWordChar c || c = '-'

def classC (c : Char) : Bool := isWordChar c || c = '.' || c = '-'

/-- Take the maximal run satisfying `p`, returning it and the rest. -/
def takeRun (p : Char → Bool) : List Char → List Char × List Char
  | [] => ([], [])
  | c :: rest =>
      if p c then
        let (run, rem) := takeRun p rest
        (c :: run, rem)
      else ([], c :: rest)

/-- Try to match `[\w.+-]+@[\w-]+\.[\w.-]+` anchored at the head. -/
def matchEmailAt (cs : List Char) : Option (List Char) :=
  let (a, r1) := takeRun classA cs
  if a.isEmpty then none
  else
    match r1 with
    | '@' :: r2 =>
        let (b, r3) := takeRun classB r2
        if b.isEmpty then none
        else
          match r3 with
          | '.' :: r4 =>
              let (c, _) := takeRun classC r4
              if c.isEmpty then none
              else some (a ++ '@' :: (b ++ '.' :: c))
          | _ => none
    | _ => none

/-- Leftmost search for the e-mail pattern. -/
def searchEmail : List Char → Option (List Char)
  | [] => none
  | c :: rest =>
      match matchEmailAt (c :: rest) with
      | some m => some m
      | none => searchEmail rest

/-- Embeds `re.search(...)` followed by `.group(0)`; `none` when the regular
expression finds no match in the decoded From header. -/
def extractSender (fromHeader : String) : Option String :=
  (searchEmail fromHeader.toList).map String.mk

/-! ## MAC validation

Models `wakeonlan.send_magic_packet` raising `ValueError` on a hardware
address that does not clean up to twelve hexadecimal digits. -/

def isHexDigitCh (c : Char) : Bool :=
  c.isDigit || ('a' ≤ c ∧ c ≤ 'f') || ('A' ≤ c ∧ c ≤ 'F')

def validMac (mac : String) : Bool :=
  let cs := mac.toList
  let cleaned :=
    if cs.length = 17 then
      match cs.get? 2 with
      | some sep => cs.filter (fun c => c ≠ sep)
      | none => cs
    else if cs.length = 14 then
      match cs.get? 4 with
      | some sep => cs.filter (fun c => c ≠ sep)
      | none => cs
    else cs
  cleaned.length = 12 && cleaned.all isHexDigitCh

/-! ## Python value comparison

`poweronbymail.py` compares `self.credits.get(match.group(0), 0) != 0`:
the dictionary values are strings while the default is the integer `0`,
and in Python a `str` is never equal to an `int`. -/

inductive PyVal where
  | pstr (s : String)
  | pint (n : Int)
  deriving Repr, DecidableEq

/-- Python `!=` between the dynamic values involved. -/
def pyNe : PyVal → PyVal → Bool
  | .pstr a, .pstr b => a ≠ b
  | .pint a, .pint b => a ≠ b
  | _, _ => true

/-! ## Python dict (credit ledger) -/

abbrev Credits := List (String × String)

/-- Embeds `d.get(k)` / `d[k]` lookup. -/
def dictLookup (d : Credits) (k : String) : Option String :=
  (d.find? (fun p => p.1 = k)).map (fun p => p.2)

/-- Embeds `d[k] = v`: replace in place, or append a new key. -/
def dictSet (d : Credits) (k v : String) : Credits :=
  if (d.find? (fun p => p.1 = k)).isSome then
    d.map (fun p => if p.1 = k then (k, v) else p)
  else d ++ [(k, v)]

/-! ## Observable effects -/

/-- One decoded inbound message: the decoded subject and the decoded
From header display string (sender extraction runs on the latter). -/
structure MailMsg where
  subject : String
  fromHeader : String
  deriving Repr, DecidableEq

/-- The side effects of one engine run.  `probes` records primary-node
port probes, `pings` the per-extra-node liveness checks, `deleted` the
imap message indices marked `\Deleted`. -/
structure Effects where
  wol : List String := []
  remote : List (String × String) := []
  mails : List (String × String) := []
  pushes : List String := []
  probes : List (String × Int) := []
  pings : List String := []
  deleted : List Nat := []
  deriving Repr, DecidableEq

namespace Effects

def app (a b : Effects) : Effects :=
  { wol := a.wol ++ b.wol
    remote := a.remote ++ b.remote
    mails := a.mails ++ b.mails
    pushes := a.pushes ++ b.pushes
    probes := a.probes ++ b.probes
    pings := a.pings ++ b.pings
    deleted := a.deleted ++ b.deleted }

theorem app_wol (a b : Effects) : (a.app b).wol = a.wol ++ b.wol := rfl
theorem app_remote (a b : Effects) : (a.app b).remote = a.remote ++ b.remote := rfl
theorem app_mails (a b : Effects) : (a.app b).mails = a.mails ++ b.mails := rfl
theorem app_probes (a b : Effects) : (a.app b).probes = a.probes ++ b.probes := rfl
theorem app_deleted (a b : Effects) : (a.app b).deleted = a.deleted ++ b.deleted := rfl

end Effects

/-! ## Schedule (crontab) arithmetic -/

/-- Embeds `[EXTENDTIME]` settings as loaded by `PowerManager.__init__`. -/
structure ExtendSettings where
  default_hour : String
  default_minutes : String
  max_hour : String
  keyword : String
  allowed_senders : List String
  extend_hours : Option String := none
  deriving Repr, DecidableEq

/-- The reset of one crontab line shared by
`PowerManager._update_cron_default_schedule`, `poweroff.py` and
`poweroffbymail.py`: `parts[1] = f"{default_hour},{max_hour}";
parts[0] = default_minutes`.  `.error` models the `IndexError` raised
when the matching line has fewer than two whitespace tokens. -/
def resetCronLine (dh dm mh : String) (line : String) : Except Unit String :=
  match pySplitWs line with
  | _ :: _ :: rest => .ok (joinSpace (dm :: (dh ++ "," ++ mh) :: rest))
  | _ => .error ()

/-- Walk the crontab lines, resetting the first one containing
`poweroff.py` (the shared loop of the three reset sites). -/
def resetCronLines (dh dm mh : String) : List String → Except Unit (List String)
  | [] => .ok []
  | l :: rest =>
      if strContainsSub l "poweroff.py" then
        match resetCronLine dh dm mh l with
        | .ok l' => .ok (l' :: rest)
        | .error u => .error u
      else
        match resetCronLines dh dm mh rest with
        | .ok rest' => .ok (l :: rest')
        | .error u => .error u

/-- Embeds `PowerManager._update_cron_default_schedule` on file content
(`splitlines` on read, `"\n".join` on write). -/
def pmUpdateCronDefault (es : ExtendSettings) (content : String) : Except Unit String :=
  match resetCronLines es.default_hour es.default_minutes es.max_hour
      (pySplitLinesOf content) with
  | .ok ls => .ok (joinNl ls)
  | .error u => .error u

/-- The legacy reset used inline by `poweroff.py` and `poweroffbymail.py`
(`content.split('\n')` on read, `'\n'.join` on write). -/
def legacyResetCron (dh dm mh : String) (content : String) : Except Unit String :=
  match resetCronLines dh dm mh (splitNl content) with
  | .ok ls => .ok (joinNl ls)
  | .error u => .error u

/-- The per-line extension arithmetic of
`PowerManager._extend_cron_schedule`: `new_hour = (int(hours[0]) +
extend_hours) % 24`, the ceiling is `24` when `max_hour` is `"0"`/`"00"`
and `int(max_hour)` otherwise; returns the rewritten line and the
`shutdown_time` string.  `.error` models the uncaught `IndexError` /
`ValueError` on a malformed line or hour field. -/
def pmExtendLine (es : ExtendSettings) (extend_hours : Int) (line : String) :
    Except Unit (String × String) :=
  match pySplitWs line with
  | p0 :: p1 :: rest =>
      match splitComma p1 with
      | [] => .error ()
      | h0s :: _ =>
          match pyInt h0s with
          | none => .error ()
          | some current =>
              let newHour := (current + extend_hours) % 24
              let maxVal? : Except Unit Int :=
                if es.max_hour = "0" ∨ es.max_hour = "00" then .ok 24
                else
                  match pyInt es.max_hour with
                  | none => .error ()
                  | some v => .ok v
              match maxVal? with
              | .error u => .error u
              | .ok maxVal =>
                  if newHour ≥ maxVal then
                    .ok (joinSpace (p0 :: es.max_hour :: rest),
                         zfill 2 es.max_hour ++ ":" ++ zfill 2 p0)
                  else
                    .ok (joinSpace (p0 ::
                           (zfill 2 (toString newHour) ++ "," ++ es.max_hour) :: rest),
                         zfill 2 (toString newHour) ++ ":" ++ zfill 2 p0)
  | _ => .error ()

/-- The loop of `PowerManager._extend_cron_schedule`: extend the first
line containing `poweroff.py`; `none` shutdown time when no line matched. -/
def pmExtendLines (es : ExtendSettings) (extend_hours : Int) :
    List String → Except Unit (List String × Option String)
  | [] => .ok ([], none)
  | l :: rest =>
      if strContainsSub l "poweroff.py" then
        match pmExtendLine es extend_hours l with
        | .ok (l', st) => .ok (l' :: rest, some st)
        | .error u => .error u
      else
        match pmExtendLines es extend_hours rest with
        | .ok (rest', st) => .ok (l :: rest', st)
        | .error u => .error u

/-- Embeds `PowerManager._extend_cron_schedule` on file content. -/
def pmExtendCron (es : ExtendSettings) (extend_hours : Int) (content : String) :
    Except Unit (String × Option String) :=
  match pmExtendLines es extend_hours (pySplitLinesOf content) with
  | .ok (ls, st) => .ok (joinNl ls, st)
  | .error u => .error u

/-- The per-line extension arithmetic of `POD.changeCrontab`
(`poweroffdelaybymail.py`): unlike `PowerManager`, the clamp comparison is
`int(poweroffhours[0]) >= int(self.maxhour)` with no special case mapping
`0`/`00` to `24`, and the extended hour is written without zero padding. -/
def podExtendLine (extendhour maxhour : String) (line : String) :
    Except Unit (String × String) :=
  match pySplitWs line with
  | p0 :: p1 :: rest =>
      match splitComma p1 with
      | [] => .error ()
      | h0s :: _ =>
          match pyInt h0s, pyInt extendhour with
          | some h, some e =>
              let newFirst := toString ((h + e) % 24)
              match pyInt newFirst, pyInt maxhour with
              | some nh, some mh =>
                  if nh ≥ mh then
                    .ok (joinSpace (p0 :: maxhour :: rest),
                         zfill 2 maxhour ++ ":" ++ zfill 2 p0)
                  else
                    .ok (joinSpace (p0 :: (newFirst ++ "," ++ maxhour) :: rest),
                         zfill 2 newFirst ++ ":" ++ zfill 2 p0)
              | _, _ => .error ()
          | _, _ => .error ()
  | _ => .error ()

/-- The loop of `POD.changeCrontab` over the crontab lines; `none` when no
line contains `poweroff.py` (the instance `shutdowntime` then keeps its
previous value). -/
def podExtendLines (extendhour maxhour : String) :
    List String → Except Unit (List String × Option String)
  | [] => .ok ([], none)
  | l :: rest =>
      if strContainsSub l "poweroff.py" then
        match podExtendLine extendhour maxhour l with
        | .ok (l', st) => .ok (l' :: rest, some st)
        | .error u => .error u
      else
        match podExtendLines extendhour maxhour rest with
        | .ok (rest', st) => .ok (l :: rest', st)
        | .error u => .error u

/-- The crontab mutation of `POD.changeCrontab` on file content
(`split('\n')` / `'\n'.join`). -/
def podExtendCron (extendhour maxhour : String) (content : String) :
    Except Unit (String × Option String) :=
  match podExtendLines extendhour maxhour (splitNl content) with
  | .ok (ls, st) => .ok (joinNl ls, st)
  | .error u => .error u

/-! ## Shared run machinery -/

def Effects.nil : Effects := {}

/-- Python truthiness of an optional string (`None` and `""` are falsy). -/
def optStrTruthy : Option String → Bool
  | some s => s ≠ ""
  | none => false

/-- Python truthiness of an optional integer (`None` and `0` are falsy). -/
def optIntTruthy : Option Int → Bool
  | some n => n ≠ 0
  | none => false

/-- Iterate message processing over the mailbox (message indices start at
1 as in the imap fetch loop), accumulating effects and threading the flow
state; a crash (uncaught exception) aborts the remaining messages. -/
def runMsgs {σ : Type} (step : Nat → σ → MailMsg → Effects × σ × Bool) :
    Nat → σ → List MailMsg → Effects × σ × Bool
  | _, st, [] => (Effects.nil, st, false)
  | i, st, m :: rest =>
      let r := step i st m
      if r.2.2 then r
      else
        let r2 := runMsgs step (i + 1) r.2.1 rest
        (r.1.app r2.1, r2.2.1, r2.2.2)

/-! ## PowerManager configuration -/

structure GeneralSettings where
  enabled : Bool
  dry_run : Bool
  verbose_logging : Bool
  deriving Repr, DecidableEq

structure NodeSettings where
  name : String
  mac : String
  ip : String
  port : Int
  ssh_port : Option Int := none
  user : Option String := none
  password : Option String := none
  deriving Repr, DecidableEq

structure PowerOnSettings where
  keyword : String
  allowed_senders : List String
  allowed_credits : List String
  deriving Repr, DecidableEq

structure PowerOffSettings where
  keyword : Option String
  allowed_senders : Option (List String)
  command : String
  deriving Repr, DecidableEq

structure ExtraNode where
  name : String
  ip : String
  mac : String
  ssh_port : Option Int := none
  user : Option String := none
  password : Option String := none
  deriving Repr, DecidableEq

structure PMConfig where
  general : GeneralSettings
  node : NodeSettings
  mailConfigured : Bool
  power_on_settings : Option PowerOnSettings := none
  power_off_settings : Option PowerOffSettings := none
  extend_settings : Option ExtendSettings := none
  extra_nodes : List ExtraNode := []
  deriving Repr, DecidableEq

/-! ## PowerManager reply bodies (exact strings from the source) -/

def pmDisabledBody : String :=
  "Hi,\n\n Service staat uit, je hoeft even geen commando\x27s" ++
  " te sturen.\n\nFijne dag!\n\n"

def pmBodyPoweringOff (n : String) : String :=
  "Hi,\n\n " ++ n ++ " wordt uitgezet, even geduld.\n\nFijne dag!\n\n"

def pmBodyAlreadyOff (n : String) : String :=
  "Hi,\n\n " ++ n ++ " is al uit, je hoeft het \x27power off\x27" ++
  " commando niet meer te sturen.\n\nFijne dag!\n\n"

def pmExtendOkBody (t : String) : String :=
  "Hi,\n\n Bedankt voor je mailtje. De server blijft aan tot " ++ t ++
  ".\n\nFijne dag!\n\n"

def pmExtendFailBody : String :=
  "Hi,\n\n Helaas kon ik de geplande shutdown niet aanpassen.\n\nFijne dag!\n\n"

/-! ## PowerManager cron-triggered flows -/

/-- Embeds `PowerManager.power_on`: the cron-triggered wake-up. The crash flag
models `sys.exit(1)` on a malformed hardware address. -/
def pmPowerOn (cfg : PMConfig) (reach : Bool) : Effects × Bool :=
  if !cfg.general.enabled then (Effects.nil, false)
  else
    let probeEff : Effects := { probes := [(cfg.node.ip, cfg.node.port)] }
    if reach then (probeEff, false)
    else if cfg.general.dry_run then (probeEff, false)
    else if !validMac cfg.node.mac then (probeEff, true)
    else
      (probeEff.app
        { wol := [cfg.node.mac],
          pushes := ["PowerOn - WOL command sent by cron"] }, false)

/-- Embeds `PowerManager.power_off`: the cron-triggered shutdown, followed by the
schedule reset (`_update_cron_default_schedule`). -/
def pmPowerOff (cfg : PMConfig) (reach : Bool) (cron : String) :
    Effects × String × Bool :=
  if !cfg.general.enabled then (Effects.nil, cron, false)
  else
    let probeEff : Effects := { probes := [(cfg.node.ip, cfg.node.port)] }
    if !reach then (probeEff, cron, false)
    else if cfg.general.dry_run then (probeEff, cron, false)
    else
      match cfg.power_off_settings with
      | none => (probeEff, cron, false)
      | some pos =>
          if !(optStrTruthy cfg.node.user && optStrTruthy cfg.node.password &&
               optIntTruthy cfg.node.ssh_port) then
            (probeEff, cron, false)
          else
            let actEff : Effects :=
              { remote := [(cfg.node.ip, pos.command)],
                pushes := ["PowerOff - SLEEP command sent by cron"] }
            match cfg.extend_settings with
            | none => (probeEff.app actEff, cron, false)
            | some es =>
                match pmUpdateCronDefault es cron with
                | .ok cron' => (probeEff.app actEff, cron', false)
                | .error _ => (probeEff.app actEff, cron, true)

/-! ## PowerManager mail-triggered flows -/

/-- Embeds `PowerManager._handle_power_off_request` for one authorized sender. -/
def pmHandlePowerOffRequest (cfg : PMConfig) (reach : Bool) (cron : String)
    (sender : String) : Effects × String × Bool :=
  if !cfg.general.enabled then
    ({ mails := [(sender, pmDisabledBody)] }, cron, false)
  else
    let probeEff : Effects := { probes := [(cfg.node.ip, cfg.node.port)] }
    let isOnline := reach
    let body := if isOnline then pmBodyPoweringOff cfg.node.name
                else pmBodyAlreadyOff cfg.node.name
    if isOnline && !cfg.general.dry_run then
      match cfg.power_off_settings with
      | none => (probeEff, cron, false)
      | some pos =>
          if !(optStrTruthy cfg.node.user && optStrTruthy cfg.node.password &&
               optIntTruthy cfg.node.ssh_port) then
            (probeEff, cron, false)
          else
            let remoteEff : Effects := { remote := [(cfg.node.ip, pos.command)] }
            match (match cfg.extend_settings with
                   | none => Except.ok cron
                   | some es => pmUpdateCronDefault es cron) with
            | .error _ => (probeEff.app remoteEff, cron, true)
            | .ok cron' =>
                (probeEff.app (remoteEff.app
                  { pushes := ["PowerOffByEmail - SLEEP command sent by " ++ sender],
                    mails := [(sender, body)] }), cron', false)
    else
      (probeEff.app { mails := [(sender, body)] }, cron, false)

/-- One message of `PowerManager.power_off_from_mail`.  A message without
an extractable sender is skipped without raising. -/
def pmPowerOffMsgStep (cfg : PMConfig) (pos : PowerOffSettings) (reach : Bool)
    (_i : Nat) (cron : String) (m : MailMsg) : Effects × String × Bool :=
  match extractSender m.fromHeader with
  | none => (Effects.nil, cron, false)
  | some sender =>
      match pos.keyword with
      | none => (Effects.nil, cron, false)
      | some kw =>
          if pyLower m.subject ≠ pyLower kw then (Effects.nil, cron, false)
          else if (match pos.allowed_senders with
                   | some l => l ≠ [] && !l.contains sender
                   | none => false) then (Effects.nil, cron, false)
          else pmHandlePowerOffRequest cfg reach cron sender

/-- Embeds `PowerManager.power_off_from_mail`. -/
def pmPowerOffFromMail (cfg : PMConfig) (reach : Bool) (cron : String)
    (mailbox : List MailMsg) : Effects × String × Bool :=
  match cfg.power_off_settings, cfg.mailConfigured with
  | some pos, true => runMsgs (pmPowerOffMsgStep cfg pos reach) 1 cron mailbox
  | _, _ => (Effects.nil, cron, false)

/-- One message of `PowerManager.power_on_from_mail`: every action is
commented out in the source, so eligible messages only produce log lines. -/
def pmPowerOnMsgStep (cfg : PMConfig) (pon : PowerOnSettings)
    (_i : Nat) (st : Unit) (m : MailMsg) : Effects × Unit × Bool :=
  match extractSender m.fromHeader with
  | none => (Effects.nil, st, false)
  | some sender =>
      if pyLower m.subject ≠ pyLower pon.keyword then (Effects.nil, st, false)
      else if !pon.allowed_senders.contains sender then (Effects.nil, st, false)
      else (Effects.nil, st, false)

/-- Embeds `PowerManager.power_on_from_mail`. -/
def pmPowerOnFromMail (cfg : PMConfig) (mailbox : List MailMsg) :
    Effects × Bool :=
  match cfg.power_on_settings, cfg.mailConfigured with
  | some pon, true =>
      let r := runMsgs (pmPowerOnMsgStep cfg pon) 1 () mailbox
      (r.1, r.2.2)
  | _, _ => (Effects.nil, false)

/-- One message of `PowerManager.extend_shutdown_from_mail`: note that the
source consults neither `enabled` nor `dry_run` before mutating the
schedule file. -/
def pmExtendMsgStep (cfg : PMConfig) (es : ExtendSettings)
    (_i : Nat) (cron : String) (m : MailMsg) : Effects × String × Bool :=
  match extractSender m.fromHeader with
  | none => (Effects.nil, cron, false)
  | some sender =>
      if pyLower m.subject ≠ pyLower es.keyword then (Effects.nil, cron, false)
      else if !es.allowed_senders.contains sender then (Effects.nil, cron, false)
      else
        let eh? : Option Int :=
          match es.extend_hours with
          | none => some 0
          | some s => if s = "" then some 0 else pyInt s
        match eh? with
        | none => (Effects.nil, cron, true)
        | some eh =>
            match pmExtendCron es eh cron with
            | .error _ => (Effects.nil, cron, true)
            | .ok (cron', st?) =>
                let body :=
                  match st? with
                  | some t => pmExtendOkBody t
                  | none => pmExtendFailBody
                ({ mails := [(sender, body)] }, cron', false)

/-- Embeds `PowerManager.extend_shutdown_from_mail`. -/
def pmExtendShutdownFromMail (cfg : PMConfig) (cron : String)
    (mailbox : List MailMsg) : Effects × String × Bool :=
  match cfg.extend_settings, cfg.mailConfigured with
  | some es, true => runMsgs (pmExtendMsgStep cfg es) 1 cron mailbox
  | _, _ => (Effects.nil, cron, false)

/-! ## PowerManager extra-node flows -/

/-- Per-node loop of `PowerManager.power_on_extra_nodes` (the `alive` list
holds the IPs answering ping). -/
def pmPowerOnExtraLoop (cfg : PMConfig) (alive : List String) :
    List ExtraNode → Effects
  | [] => Effects.nil
  | node :: rest =>
      if cfg.general.dry_run then pmPowerOnExtraLoop cfg alive rest
      else
        let pingEff : Effects := { pings := [node.ip] }
        if alive.contains node.ip then
          pingEff.app (pmPowerOnExtraLoop cfg alive rest)
        else if !validMac node.mac then
          pingEff.app (pmPowerOnExtraLoop cfg alive rest)
        else
          pingEff.app (Effects.app
            { wol := [node.mac],
              pushes := ["PowerOn Extra Nodes - WOL command sent for " ++ node.name] }
            (pmPowerOnExtraLoop cfg alive rest))

/-- Embeds `PowerManager.power_on_extra_nodes`. -/
def pmPowerOnExtraNodes (cfg : PMConfig) (reach : Bool) (alive : List String) :
    Effects :=
  if cfg.extra_nodes.isEmpty then Effects.nil
  else if !cfg.general.enabled then Effects.nil
  else
    let probeEff : Effects := { probes := [(cfg.node.ip, cfg.node.port)] }
    if !reach then probeEff
    else probeEff.app (pmPowerOnExtraLoop cfg alive cfg.extra_nodes)

/-- Per-node loop of `PowerManager.power_off_extra_nodes`. -/
def pmPowerOffExtraLoop (cfg : PMConfig) (alive : List String) :
    List ExtraNode → Effects
  | [] => Effects.nil
  | node :: rest =>
      if cfg.general.dry_run then pmPowerOffExtraLoop cfg alive rest
      else if !(optStrTruthy node.user && optStrTruthy node.password &&
                optIntTruthy node.ssh_port) then
        pmPowerOffExtraLoop cfg alive rest
      else
        let pingEff : Effects := { pings := [node.ip] }
        if !alive.contains node.ip then
          pingEff.app (pmPowerOffExtraLoop cfg alive rest)
        else
          let cmd :=
            match cfg.power_off_settings with
            | some pos => pos.command
            | none => ""
          pingEff.app (Effects.app
            { remote := [(node.ip, cmd)],
              pushes := ["PowerOff Extra Nodes - SLEEP command sent for " ++ node.name] }
            (pmPowerOffExtraLoop cfg alive rest))

/-- Embeds `PowerManager.power_off_extra_nodes`: only acts when the primary node
is unreachable. -/
def pmPowerOffExtraNodes (cfg : PMConfig) (reach : Bool) (alive : List String) :
    Effects :=
  if cfg.extra_nodes.isEmpty then Effects.nil
  else if !cfg.general.enabled then Effects.nil
  else
    let probeEff : Effects := { probes := [(cfg.node.ip, cfg.node.port)] }
    if reach then probeEff
    else probeEff.app (pmPowerOffExtraLoop cfg alive cfg.extra_nodes)

/-! ## Legacy cron scripts: `poweron.py` and `poweroff.py` -/

structure PoweronConfig where
  enabled : Bool
  dry_run : Bool
  verbose_logging : Bool
  nodename : String
  macaddress : String
  nodeip : String
  nodeport : Int
  deriving Repr, DecidableEq

/-- Embeds `PowerOn.run` (`poweron.py`): a malformed hardware address is logged
and the run returns (no exit). -/
def poweronRun (cfg : PoweronConfig) (reach : Bool) : Effects :=
  if !cfg.enabled then Effects.nil
  else
    let probeEff : Effects := { probes := [(cfg.nodeip, cfg.nodeport)] }
    if reach then probeEff
    else if cfg.dry_run then probeEff
    else if !validMac cfg.macaddress then probeEff
    else
      probeEff.app
        { wol := [cfg.macaddress],
          pushes := ["PowerOn - WOL command sent by cron"] }

structure PoweroffConfig where
  enabled : Bool
  dry_run : Bool
  verbose_logging : Bool
  nodename : String
  nodeip : String
  nodeport : Int
  nodesshport : Int
  nodeuser : String
  nodepwd : String
  poweroffcommand : String
  defaulthour : String
  defaultminutes : String
  maxhour : String
  deriving Repr, DecidableEq

/-- Embeds `POWEROFF.run` (`poweroff.py`): when enabled and the node is
reachable, the remote command runs only outside dry-run, but the schedule
reset that follows is outside the dry-run guard and runs either way. -/
def poweroffRun (cfg : PoweroffConfig) (reach : Bool) (cron : String) :
    Effects × String × Bool :=
  if !cfg.enabled then (Effects.nil, cron, false)
  else
    let probeEff : Effects := { probes := [(cfg.nodeip, cfg.nodeport)] }
    if reach then
      let actEff : Effects :=
        if !cfg.dry_run then
          { remote := [(cfg.nodeip, cfg.poweroffcommand)],
            pushes := ["PowerOff - SLEEP command sent by cron"] }
        else Effects.nil
      match legacyResetCron cfg.defaulthour cfg.defaultminutes cfg.maxhour cron with
      | .ok cron' => (probeEff.app actEff, cron', false)
      | .error _ => (probeEff.app actEff, cron, true)
    else (probeEff, cron, false)

/-! ## `poweronbymail.py` (`POBE`) -/

structure PobeConfig where
  enabled : Bool
  dry_run : Bool
  verbose_logging : Bool
  nodename : String
  macaddress : String
  nodeip : String
  nodeport : Int
  keyword : String
  allowed_senders : List String
  deriving Repr, DecidableEq

def pobeBodyWaking (n : String) : String :=
  "Hi,\n\n " ++ n ++ " wordt aangezet, even geduld.\n\nFijne dag!\n\n"

def pobeBodyNoCredits (n : String) : String :=
  "Hi,\n\n " ++ n ++ " wordt niet aangezet, je credits zijn op.\n\nFijne dag!\n\n"

def pobeBodyAlreadyOn (n : String) : String :=
  "Hi,\n\n " ++ n ++ " is al aan, Je hoeft het \x27power on\x27" ++
  " commando niet meer te sturen.\n\nFijne dag!\n\n"

def pobeBodyDisabled (n : String) : String :=
  "Hi,\n\nDe service voor " ++ n ++ " staat uit, je hoeft even geen" ++
  " commando\x27s te sturen.\n\nFijne dag!\n\n"

/-- One message of `POBE.run`.  The crash flag models the uncaught
`AttributeError` from `match.group(0)` when the sender pattern found no
match, the `sys.exit()` after a wake-on-lan `ValueError`, and the
`KeyError`/`ValueError` of `int(self.credits[sender])`.  Note the
`if result != 0 or result == 0` reachability test from the source, which
is always true, and the wake-on-lan guard `credits.get(sender, 0) != 0`
which compares a string against the integer `0`. -/
def pobeStep (cfg : PobeConfig) (reach : Bool) (i : Nat) (credits : Credits)
    (m : MailMsg) : Effects × Credits × Bool :=
  let sender? := extractSender m.fromHeader
  if pyLower m.subject = pyLower cfg.keyword then
    match sender? with
    | none => (Effects.nil, credits, true)
    | some sender =>
        if cfg.allowed_senders.contains sender then
          let delEff : Effects :=
            if !cfg.dry_run then { deleted := [i] } else Effects.nil
          if cfg.enabled then
            let probeEff : Effects := { probes := [(cfg.nodeip, cfg.nodeport)] }
            if (!reach) || reach then
              let wolAttempt : Except Unit Effects :=
                if !cfg.dry_run then
                  if pyNe (match dictLookup credits sender with
                           | some v => .pstr v
                           | none => .pint 0) (.pint 0) then
                    if validMac cfg.macaddress then .ok { wol := [cfg.macaddress] }
                    else .error ()
                  else .ok Effects.nil
                else .ok Effects.nil
              match wolAttempt with
              | .error _ => (probeEff, credits, true)
              | .ok wolEff =>
                  let pushEff : Effects :=
                    { pushes := ["PowerOnByEmail - WOL command sent by " ++
                                 sender ++ "\n"] }
                  match dictLookup credits sender with
                  | none => (probeEff.app (wolEff.app pushEff), credits, true)
                  | some cstr =>
                      match pyInt cstr with
                      | none => (probeEff.app (wolEff.app pushEff), credits, true)
                      | some credit =>
                          if credit ≠ 0 then
                            let credits' :=
                              if credit > 0 then
                                dictSet credits sender (toString (credit - 1))
                              else credits
                            (probeEff.app (wolEff.app (pushEff.app (Effects.app
                              { mails := [(sender, pobeBodyWaking cfg.nodename)] }
                              delEff))), credits', false)
                          else
                            (probeEff.app (wolEff.app (pushEff.app (Effects.app
                              { mails := [(sender, pobeBodyNoCredits cfg.nodename)] }
                              delEff))), credits, false)
            else
              (probeEff.app (Effects.app
                { mails := [(sender, pobeBodyAlreadyOn cfg.nodename)] }
                delEff), credits, false)
          else
            (Effects.app { mails := [(sender, pobeBodyDisabled cfg.nodename)] }
              delEff, credits, false)
        else
          let delEff : Effects :=
            if !cfg.dry_run then { deleted := [i] } else Effects.nil
          (delEff, credits, false)
  else
    match sender?, cfg.verbose_logging with
    | none, true => (Effects.nil, credits, true)
    | _, _ => (Effects.nil, credits, false)

structure PobeOut where
  eff : Effects
  credits : Credits
  crashed : Bool
  saved : Option Credits
  deriving Repr, DecidableEq

/-- Embeds `POBE.run`: iterate the mailbox, then persist the credit ledger (the
state file is only written when the run completed without raising). -/
def pobeRun (cfg : PobeConfig) (reach : Bool) (credits0 : Credits)
    (mailbox : List MailMsg) : PobeOut :=
  let r := runMsgs (pobeStep cfg reach) 1 credits0 mailbox
  { eff := r.1, credits := r.2.1, crashed := r.2.2,
    saved := if r.2.2 then none else some r.2.1 }

/-! ## `poweroffdelaybymail.py` (`POD`) -/

structure PodConfig where
  enabled : Bool
  dry_run : Bool
  verbose_logging : Bool
  nodename : String
  nodeip : String
  nodeport : Int
  keyword : String
  allowed_senders : List String
  extendhour : String
  maxhour : String
  defaultminutes : String
  deriving Repr, DecidableEq

def podMaxShutdownTime (cfg : PodConfig) : String :=
  zfill 2 cfg.maxhour ++ ":" ++ zfill 2 cfg.defaultminutes

def podBodyDelayed (cfg : PodConfig) (sender st : String) : String :=
  let base :=
    "Hi,\n\n De node " ++ cfg.nodename ++ " blijft 2 uur extra aan, omdat " ++
    sender ++ " dit aanvraagt.\n\nDe eindtijd is nu " ++ st ++ "\n\n"
  let base2 :=
    if st ≠ podMaxShutdownTime cfg then
      base ++ "Als de eerst tijd is gepasseerd, is de volgende eindtijd " ++
        podMaxShutdownTime cfg ++ "\n\n"
    else base
  base2 ++ "Fijne dag!\n\n"

def podBodyAlreadyOff (n : String) : String :=
  "Hi,\n\n " ++ n ++ " is al uit, Je kunt de tijd niet verhogen nu.\n\nFijne dag!\n\n"

def podBodyDisabled : String :=
  "Hi,\n\n de service staat uit , je hoeft even geen commando\x27s" ++
  " te sturen.\n\nFijne dag!\n\n"

/-- Embeds `POD.changeCrontab`: probes the node and, when reachable and not in
dry-run, applies the extension arithmetic to the crontab.  Returns
(effects, crontab, `self.shutdowntime`, `result == 0`, crashed). -/
def podChangeCrontab (cfg : PodConfig) (reach : Bool) (mailer : String)
    (cron : String) (st : String) : Effects × String × String × Bool × Bool :=
  let probeEff : Effects := { probes := [(cfg.nodeip, cfg.nodeport)] }
  let pushEff : Effects :=
    { pushes := ["PowerOffDelay - PowerOffDelay sent by " ++ mailer ++ "\n"] }
  if reach then
    if !cfg.dry_run then
      match podExtendCron cfg.extendhour cfg.maxhour cron with
      | .error _ => (probeEff, cron, st, true, true)
      | .ok (cron', st?) =>
          (probeEff.app pushEff, cron', st?.getD st, true, false)
    else (probeEff.app pushEff, cron, st, true, false)
  else (probeEff, cron, st, false, false)

/-- One message of `POD.run`; the flow state is the pair (crontab content,
`self.shutdowntime`). -/
def podStep (cfg : PodConfig) (reach : Bool) (i : Nat) (st : String × String)
    (m : MailMsg) : Effects × (String × String) × Bool :=
  let sender? := extractSender m.fromHeader
  if pyLower m.subject = pyLower cfg.keyword then
    match sender? with
    | none => (Effects.nil, st, true)
    | some sender =>
        if cfg.allowed_senders.contains sender then
          let recipient := joinSep ", " cfg.allowed_senders
          let delEff : Effects :=
            if !cfg.dry_run then { deleted := [i] } else Effects.nil
          if cfg.enabled then
            match podChangeCrontab cfg reach sender st.1 st.2 with
            | (e, cron', st', _res0, true) => (e, (cron', st'), true)
            | (e, cron', st', res0, false) =>
                let body :=
                  if res0 then podBodyDelayed cfg sender st'
                  else podBodyAlreadyOff cfg.nodename
                (e.app (Effects.app { mails := [(recipient, body)] } delEff),
                 (cron', st'), false)
          else
            (Effects.app { mails := [(recipient, podBodyDisabled)] } delEff,
             st, false)
        else
          let delEff : Effects :=
            if !cfg.dry_run then { deleted := [i] } else Effects.nil
          (delEff, st, false)
  else
    match sender?, cfg.verbose_logging with
    | none, true => (Effects.nil, st, true)
    | _, _ => (Effects.nil, st, false)

/-- Embeds `POD.run`. -/
def podRun (cfg : PodConfig) (reach : Bool) (cron : String)
    (mailbox : List MailMsg) : Effects × (String × String) × Bool :=
  runMsgs (podStep cfg reach) 1 (cron, "00:00") mailbox

/-! ## `poweroffbymail.py` -/

structure PofbmConfig where
  enabled : Bool
  dry_run : Bool
  verbose_logging : Bool
  nodename : String
  nodeip : String
  nodeport : Int
  nodesshport : Int
  nodeuser : String
  nodepwd : String
  keyword : String
  allowed_senders : List String
  poweroffcommand : String
  defaulthour : String
  defaultminutes : String
  maxhour : String
  deriving Repr, DecidableEq

def pofbmBodyPoweringOff (n : String) : String :=
  "Hi,\n\n " ++ n ++ " wordt uitgezet, even geduld.\n\nFijne dag!\n\n"

def pofbmBodyAlreadyOff (n : String) : String :=
  "Hi,\n\n " ++ n ++ " is al uit, Je hoeft het \x27power off\x27" ++
  " commando niet meer te sturen.\n\nFijne dag!\n\n"

def pofbmBodyDisabled : String :=
  "Hi,\n\n Service staat uit , je hoeft even geen commando\x27s" ++
  " te sturen.\n\nFijne dag!\n\n"

/-- One message of the `POBE.run` of `poweroffbymail.py`.  As in
`poweroff.py` the schedule reset sits outside the dry-run guard: when the
node is reachable the crontab is rewritten even in dry-run. -/
def pofbmStep (cfg : PofbmConfig) (reach : Bool) (i : Nat) (cron : String)
    (m : MailMsg) : Effects × String × Bool :=
  let sender? := extractSender m.fromHeader
  if pyLower m.subject = pyLower cfg.keyword then
    match sender? with
    | none => (Effects.nil, cron, true)
    | some sender =>
        if cfg.allowed_senders.contains sender then
          let delEff : Effects :=
            if !cfg.dry_run then { deleted := [i] } else Effects.nil
          if cfg.enabled then
            let probeEff : Effects := { probes := [(cfg.nodeip, cfg.nodeport)] }
            if reach then
              let remoteEff : Effects :=
                if !cfg.dry_run then
                  { remote := [(cfg.nodeip, cfg.poweroffcommand)] }
                else Effects.nil
              match legacyResetCron cfg.defaulthour cfg.defaultminutes
                  cfg.maxhour cron with
              | .error _ => (probeEff.app remoteEff, cron, true)
              | .ok cron' =>
                  (probeEff.app (remoteEff.app (Effects.app
                    { pushes := ["PowerOffByEmail - SLEEP command sent by " ++
                                 sender ++ "\n"],
                      mails := [(sender, pofbmBodyPoweringOff cfg.nodename)] }
                    delEff)), cron', false)
            else
              (probeEff.app (Effects.app
                { mails := [(sender, pofbmBodyAlreadyOff cfg.nodename)] }
                delEff), cron, false)
          else
            (Effects.app { mails := [(sender, pofbmBodyDisabled)] } delEff,
             cron, false)
        else
          let delEff : Effects :=
            if !cfg.dry_run then { deleted := [i] } else Effects.nil
          (delEff, cron, false)
  else
    match sender?, cfg.verbose_logging with
    | none, true => (Effects.nil, cron, true)
    | _, _ => (Effects.nil, cron, false)

/-- The mailbox loop of `poweroffbymail.py`. -/
def pofbmRun (cfg : PofbmConfig) (reach : Bool) (cron : String)
    (mailbox : List MailMsg) : Effects × String × Bool :=
  runMsgs (pofbmStep cfg reach) 1 cron mailbox

/-! ## `poweroff_change_shutdown.py` -/

structure PocsConfig where
  enabled : Bool
  dry_run : Bool
  verbose_logging : Bool
  nodename : String
  macaddress : String
  nodeip : String
  nodeport : Int
  keyword : String
  allowed_senders : List String
  deriving Repr, DecidableEq

def pocsBodyWaking (n : String) : String :=
  "Hi,\n\n " ++ n ++ " wordt aangezet, even geduld.\n\nFijne dag!\n\n"

def pocsBodyAlreadyOn (n : String) : String :=
  "Hi,\n\n " ++ n ++ " is al aan, Je hoeft het \x27power on\x27" ++
  " commando niet meer te sturen.\n\nFijne dag!\n\n"

def pocsBodyDisabled : String :=
  "Hi,\n\n de service staat uit , je hoeft even geen commando\x27s" ++
  " te sturen.\n\nFijne dag!\n\n"

/-- The crontab scan of `poweroff_change_shutdown.py`: the first line
containing `poweron.py` gets its second token replaced by `101010110`;
the result is written to `/tmp/text.txt`, never to the crontab itself. -/
def pocsRewriteLines : List String → Except Unit (List String)
  | [] => .ok []
  | l :: rest =>
      if strContainsSub l "poweron.py" then
        match pySplitWs l with
        | p0 :: _ :: rest2 => .ok (joinSpace (p0 :: "101010110" :: rest2) :: rest)
        | _ => .error ()
      else
        match pocsRewriteLines rest with
        | .ok rest' => .ok (l :: rest')
        | .error u => .error u

/-- One message of the `POBE.run` of `poweroff_change_shutdown.py`.
Unlike every other mail flow, the subject test is a case-insensitive
substring containment: `self.keyword.lower() in str.lower(subject)`.
No magic packet is ever sent by this script, and the reply bodies are
chosen by `if result != 0` — a reachable node (`result == 0`) gets the
already-on reply while an unreachable one gets the being-woken reply. -/
def pocsStep (cfg : PocsConfig) (reach : Bool) (i : Nat) (cron : String)
    (m : MailMsg) : Effects × String × Bool :=
  let sender? := extractSender m.fromHeader
  if strContainsSub (pyLower m.subject) (pyLower cfg.keyword) then
    match sender? with
    | none => (Effects.nil, cron, true)
    | some sender =>
        if cfg.allowed_senders.contains sender then
          let delEff : Effects :=
            if !cfg.dry_run then { deleted := [i] } else Effects.nil
          if cfg.enabled then
            let probeEff : Effects := { probes := [(cfg.nodeip, cfg.nodeport)] }
            if reach then
              let scan : Except Unit Unit :=
                if !cfg.dry_run then
                  match pocsRewriteLines (splitNl cron) with
                  | .ok _ => .ok ()
                  | .error u => .error u
                else .ok ()
              match scan with
              | .error _ => (probeEff, cron, true)
              | .ok _ =>
                  (probeEff.app (Effects.app
                    { pushes := ["PowerOnByEmail - WOL command sent by " ++
                                 sender ++ "\n"],
                      mails := [(sender, pocsBodyAlreadyOn cfg.nodename)] }
                    delEff), cron, false)
            else
              (probeEff.app (Effects.app
                { mails := [(sender, pocsBodyWaking cfg.nodename)] }
                delEff), cron, false)
          else
            (Effects.app { mails := [(sender, pocsBodyDisabled)] } delEff,
             cron, false)
        else
          let delEff : Effects :=
            if !cfg.dry_run then { deleted := [i] } else Effects.nil
          (delEff, cron, false)
  else
    match sender?, cfg.verbose_logging with
    | none, true => (Effects.nil, cron, true)
    | _, _ => (Effects.nil, cron, false)

/-- The mailbox loop of `poweroff_change_shutdown.py`. -/
def pocsRun (cfg : PocsConfig) (reach : Bool) (cron : String)
    (mailbox : List MailMsg) : Effects × String × Bool :=
  runMsgs (pocsStep cfg reach) 1 cron mailbox

/-! ## Legacy extra-node scripts -/

structure PonenConfig where
  enabled : Bool
  dry_run : Bool
  verbose_logging : Bool
  nodeip : String
  nodeport : Int
  nodename : List String
  extranodeip : List String
  nodemacaddress : List String
  deriving Repr, DecidableEq

/-- Per-node loop of `poweron_extra_nodes.py` (`for node in
range(len(self.nodename))`); an index beyond `extranodeip` or
`nodemacaddress` raises an uncaught `IndexError`; a wake-on-lan
`ValueError` is caught and the loop continues. -/
def ponenLoop (cfg : PonenConfig) (alive : List String) :
    Nat → List String → Effects × Bool
  | _, [] => (Effects.nil, false)
  | idx, name :: rest =>
      match cfg.extranodeip.get? idx with
      | none => (Effects.nil, true)
      | some ip =>
          let pingEff : Effects := { pings := [ip] }
          if alive.contains ip then
            let (e, c) := ponenLoop cfg alive (idx + 1) rest
            (pingEff.app e, c)
          else
            match cfg.nodemacaddress.get? idx with
            | none => (pingEff, true)
            | some mac =>
                if !validMac mac then
                  let (e, c) := ponenLoop cfg alive (idx + 1) rest
                  (pingEff.app e, c)
                else
                  let (e, c) := ponenLoop cfg alive (idx + 1) rest
                  (pingEff.app (Effects.app
                    { wol := [mac],
                      pushes := ["PowerOn Extra Nodes - WOL command sent for " ++
                                 name ++ " - " ++ mac ++ "\n"] } e), c)

/-- Embeds `EXTRA_NODES.run` of `poweron_extra_nodes.py`. -/
def ponenRun (cfg : PonenConfig) (reach : Bool) (alive : List String) :
    Effects × Bool :=
  if !cfg.enabled then (Effects.nil, false)
  else
    let probeEff : Effects := { probes := [(cfg.nodeip, cfg.nodeport)] }
    if reach then
      if !cfg.dry_run then
        let (e, c) := ponenLoop cfg alive 0 cfg.nodename
        (probeEff.app e, c)
      else (probeEff, false)
    else (probeEff, false)

structure PofenConfig where
  enabled : Bool
  dry_run : Bool
  verbose_logging : Bool
  nodeip : String
  nodeport : Int
  poweroffcommand : String
  nodename : List String
  nodepwd : List String
  nodeuser : List String
  extranodeip : List String
  extranodesshport : List String
  nodemacaddress : List String
  deriving Repr, DecidableEq

/-- Per-node loop of `poweroff_extra_nodes.py`. -/
def pofenLoop (cfg : PofenConfig) (alive : List String) :
    Nat → List String → Effects × Bool
  | _, [] => (Effects.nil, false)
  | idx, name :: rest =>
      match cfg.extranodeip.get? idx with
      | none => (Effects.nil, true)
      | some ip =>
          let pingEff : Effects := { pings := [ip] }
          if alive.contains ip then
            match cfg.nodepwd.get? idx, cfg.nodeuser.get? idx,
                cfg.extranodesshport.get? idx with
            | some _, some _, some _ =>
                let (e, c) := pofenLoop cfg alive (idx + 1) rest
                (pingEff.app (Effects.app
                  { remote := [(ip, cfg.poweroffcommand)],
                    pushes := ["PowerOff Extra Nodes - SLEEP command sent for " ++
                               name ++ "\n"] } e), c)
            | _, _, _ => (pingEff, true)
          else
            let (e, c) := pofenLoop cfg alive (idx + 1) rest
            (pingEff.app e, c)

/-- Embeds `EXTRA_NODES.run` of `poweroff_extra_nodes.py`: acts only when the
primary node is unreachable. -/
def pofenRun (cfg : PofenConfig) (reach : Bool) (alive : List String) :
    Effects × Bool :=
  if !cfg.enabled then (Effects.nil, false)
  else
    let probeEff : Effects := { probes := [(cfg.nodeip, cfg.nodeport)] }
    if !reach then
      if !cfg.dry_run then
        let (e, c) := pofenLoop cfg alive 0 cfg.nodename
        (probeEff.app e, c)
      else (probeEff, false)
    else (probeEff, false)

/-! ## `additional_nodes.py` -/

structure AnConfig where
  enabled : Bool
  dry_run : Bool
  verbose_logging : Bool
  target_node : String
  target_port : Int
  target_mac_addresses : List String
  deriving Repr, DecidableEq

/-- Per-MAC loop of `ADDITIONAL_NODES.run`: `arpFound` lists the hardware
addresses for which the ARP scan resolved an IP.  The wake-on-lan
`ValueError` handler calls `sys.exit()` (crash); the log and push message
run for every processed address. -/
def anLoop (cfg : AnConfig) (arpFound : List String) :
    List String → Effects × Bool
  | [] => (Effects.nil, false)
  | mac :: rest =>
      if arpFound.contains mac then
        let (e, c) := anLoop cfg arpFound rest
        (Effects.app
          { pushes := ["PowerOnByEmail - WOL command sent for " ++ mac ++ "\n"] }
          e, c)
      else if !validMac mac then (Effects.nil, true)
      else
        let (e, c) := anLoop cfg arpFound rest
        (Effects.app
          { wol := [mac],
            pushes := ["PowerOnByEmail - WOL command sent for " ++ mac ++ "\n"] }
          e, c)

/-- Embeds `ADDITIONAL_NODES.run`. -/
def anRun (cfg : AnConfig) (reach : Bool) (arpFound : List String) :
    Effects × Bool :=
  if !cfg.enabled then (Effects.nil, false)
  else
    let probeEff : Effects := { probes := [(cfg.target_node, cfg.target_port)] }
    if reach then
      if !cfg.dry_run then
        let (e, c) := anLoop cfg arpFound cfg.target_mac_addresses
        (probeEff.app e, c)
      else (probeEff, false)
    else (probeEff, false)

/-! ## `[EXTRANODES]` configuration loading (`PowerManager.__init__`) -/

/-- Embeds `_split_csv`: strip each item and drop empties. -/
def splitCsv (s : String) : List String :=
  ((splitComma s).map (fun t => String.mk (trimChars t.toList))).filter
    (fun t => t ≠ "")

/-- The per-index `ExtraNode` build of `PowerManager.__init__`: every list
other than the names is accessed only under an explicit bound check, with
`""` substituted for a missing ip or mac and `None` for a missing ssh
port, user or password.  `none` overall models the `ValueError` of
`int(ssh_ports[index])` on a non-numeric entry. -/
def buildExtraNode (ips macs sshPorts users passwords : List String)
    (index : Nat) (name : String) : Option ExtraNode :=
  let sshEntry := if index < sshPorts.length then sshPorts.getD index "" else ""
  let ssh? : Option (Option Int) :=
    if index < sshPorts.length ∧ sshEntry ≠ "" then
      match pyInt sshEntry with
      | some n => some (some n)
      | none => none
    else some none
  match ssh? with
  | none => none
  | some ssh =>
      some
        { name := name
          ip := if index < ips.length then ips.getD index "" else ""
          mac := if index < macs.length then macs.getD index "" else ""
          ssh_port := ssh
          user := if index < users.length then some (users.getD index "") else none
          password :=
            if index < passwords.length ∧ passwords.getD index "" ≠ "" then
              some (passwords.getD index "")
            else none }

/-- The `for index, name in enumerate(names)` loop. -/
def buildExtraNodes (ips macs sshPorts users passwords : List String) :
    Nat → List String → Option (List ExtraNode)
  | _, [] => some []
  | index, name :: rest =>
      match buildExtraNode ips macs sshPorts users passwords index name with
      | none => none
      | some node =>
          match buildExtraNodes ips macs sshPorts users passwords (index + 1) rest with
          | none => none
          | some nodes => some (node :: nodes)

/-- Loading the `EXTRANODES` section from the six raw comma-separated
option strings. -/
def loadExtraNodes (namesStr ipsStr macsStr sshStr usersStr pwdsStr : String) :
    Option (List ExtraNode) :=
  buildExtraNodes (splitCsv ipsStr) (splitCsv macsStr) (splitCsv sshStr)
    (splitCsv usersStr) (splitCsv pwdsStr) 0 (splitCsv namesStr)



/-! ## Concrete fixtures used to instantiate the verification theorems -/

def esSample : ExtendSettings :=
  { default_hour := "7", default_minutes := "30", max_hour := "23",
    keyword := "delay", allowed_senders := ["alice@example.com"],
    extend_hours := some "2" }

def nodeSample : NodeSettings :=
  { name := "server", mac := "aa-bb-cc-dd-ee-ff", ip := "10.0.0.2",
    port := 80, ssh_port := some 22, user := some "root",
    password := some "pw" }

def posSample : PowerOffSettings :=
  { keyword := some "sleep", allowed_senders := some ["alice@example.com"],
    command := "halt" }

def ponSample : PowerOnSettings :=
  { keyword := "wakeup", allowed_senders := ["alice@example.com"],
    allowed_credits := ["2"] }

def pmSample (en dr : Bool) : PMConfig :=
  { general := { enabled := en, dry_run := dr, verbose_logging := false },
    node := nodeSample, mailConfigured := true,
    power_on_settings := some ponSample,
    power_off_settings := some posSample,
    extend_settings := some esSample,
    extra_nodes := [{ name := "nas", ip := "10.0.0.3", mac := "aa-bb-cc-dd-ee-01",
                      ssh_port := some 22, user := some "root", password := some "pw" }] }

def pobeSample (en dr : Bool) : PobeConfig :=
  { enabled := en, dry_run := dr, verbose_logging := false,
    nodename := "server", macaddress := "aa-bb-cc-dd-ee-ff",
    nodeip := "10.0.0.2", nodeport := 80, keyword := "wakeup",
    allowed_senders := ["alice@example.com"] }

def podSample (en dr : Bool) : PodConfig :=
  { enabled := en, dry_run := dr, verbose_logging := false,
    nodename := "server", nodeip := "10.0.0.2", nodeport := 80,
    keyword := "delay", allowed_senders := ["alice@example.com"],
    extendhour := "2", maxhour := "23", defaultminutes := "30" }

def pofbmSample (en dr : Bool) : PofbmConfig :=
  { enabled := en, dry_run := dr, verbose_logging := false,
    nodename := "server", nodeip := "10.0.0.2", nodeport := 80,
    nodesshport := 22, nodeuser := "root", nodepwd := "pw",
    keyword := "sleep", allowed_senders := ["alice@example.com"],
    poweroffcommand := "halt", defaulthour := "7", defaultminutes := "30",
    maxhour := "23" }

def pocsSample (en dr : Bool) : PocsConfig :=
  { enabled := en, dry_run := dr, verbose_logging := false,
    nodename := "server", macaddress := "aa-bb-cc-dd-ee-ff",
    nodeip := "10.0.0.2", nodeport := 80, keyword := "wakeup",
    allowed_senders := ["alice@example.com"] }

def poweroffSample (en dr : Bool) : PoweroffConfig :=
  { enabled := en, dry_run := dr, verbose_logging := false,
    nodename := "server", nodeip := "10.0.0.2", nodeport := 80,
    nodesshport := 22, nodeuser := "root", nodepwd := "pw",
    poweroffcommand := "halt", defaulthour := "7", defaultminutes := "30",
    maxhour := "23" }

def poweronSample (en dr : Bool) : PoweronConfig :=
  { enabled := en, dry_run := dr, verbose_logging := false,
    nodename := "server", macaddress := "aa-bb-cc-dd-ee-ff",
    nodeip := "10.0.0.2", nodeport := 80 }

def ponenSample (en dr : Bool) : PonenConfig :=
  { enabled := en, dry_run := dr, verbose_logging := false,
    nodeip := "10.0.0.2", nodeport := 80, nodename := ["nas"],
    extranodeip := ["10.0.0.3"], nodemacaddress := ["aa-bb-cc-dd-ee-01"] }

def pofenSample (en dr : Bool) : PofenConfig :=
  { enabled := en, dry_run := dr, verbose_logging := false,
    nodeip := "10.0.0.2", nodeport := 80, poweroffcommand := "halt",
    nodename := ["nas"], nodepwd := ["pw"], nodeuser := ["root"],
    extranodeip := ["10.0.0.3"], extranodesshport := ["22"],
    nodemacaddress := ["aa-bb-cc-dd-ee-01"] }

def anSample (en dr : Bool) : AnConfig :=
  { enabled := en, dry_run := dr, verbose_logging := false,
    target_node := "10.0.0.2", target_port := 80,
    target_mac_addresses := ["aa-bb-cc-dd-ee-01"] }

def cronSample : String := "45 9,23 * * * /usr/bin/python3 /app/poweroff.py"

def msgWake : MailMsg :=
  { subject := "wakeup", fromHeader := "Alice <alice@example.com>" }

def msgDelay : MailMsg :=
  { subject := "delay", fromHeader := "Alice <alice@example.com>" }

def msgSleep : MailMsg :=
  { subject := "sleep", fromHeader := "Alice <alice@example.com>" }

def msgNoSender : MailMsg :=
  { subject := "wakeup", fromHeader := "no address here" }

/-- The schedule-extension rule in the exact words of the specification
(claim C1): ceiling `24` when `maxHour` is `0`/`"00"`, `maxHour`
otherwise, clamping the hour field to `maxHour` alone at or above the
ceiling and writing `"{newHour},{maxHour}"` below it.  Kept separate from
the source-derived functions so the two can be compared. -/
def claimC1Rule (h0 e mhVal : Int) (mhStr : String) : String :=
  let newHour := (h0 + e) % 24
  let ceiling : Int := if mhStr = "0" ∨ mhStr = "00" then 24 else mhVal
  if newHour ≥ ceiling then mhStr
  else toString newHour ++ "," ++ mhStr


/-! ## Verification -/


theorem runMsgs_proj_nil {σ : Type} {α : Type} (f : Effects → List α)
    (hnil : f Effects.nil = [])
    (hf : ∀ a b : Effects, f (a.app b) = f a ++ f b)
    (step : Nat → σ → MailMsg → Effects × σ × Bool)
    (h : ∀ i st m, f ((step i st m).1) = []) :
    ∀ i st ms, f ((runMsgs step i st ms).1) = [] := by
  intro i st ms
  induction ms generalizing i st with
  | nil => simpa [runMsgs] using hnil
  | cons m rest ih =>
      by_cases hc : (step i st m).2.2
      · simp [runMsgs, hc, h]
      · simp [runMsgs, hc, hf, h, ih]

theorem runMsgs_state_eq {σ τ : Type} (g : σ → τ)
    (step : Nat → σ → MailMsg → Effects × σ × Bool)
    (h : ∀ i st m, g ((step i st m).2.1) = g st) :
    ∀ i st ms, g ((runMsgs step i st ms).2.1) = g st := by
  intro i st ms
  induction ms generalizing i st with
  | nil => simp [runMsgs]
  | cons m rest ih =>
      by_cases hc : (step i st m).2.2
      · simp [runMsgs, hc, h]
      · simp [runMsgs, hc, ih, h]

theorem pobeStep_disabled (cfg : PobeConfig) (reach : Bool) (i : Nat)
    (cr : Credits) (m : MailMsg) (hen : cfg.enabled = false) :
    ((pobeStep cfg reach i cr m).1).wol = [] ∧
    ((pobeStep cfg reach i cr m).1).remote = [] := by
  unfold pobeStep
  simp only [hen]
  repeat' split
  all_goals simp_all [Effects.app, Effects.nil]

theorem pobeStep_dry_wol (cfg : PobeConfig) (reach : Bool) (i : Nat)
    (cr : Credits) (m : MailMsg) (hd : cfg.dry_run = true) :
    ((pobeStep cfg reach i cr m).1).wol = [] ∧
    ((pobeStep cfg reach i cr m).1).remote = [] := by
  unfold pobeStep
  simp only [hd, Bool.not_true, Bool.false_eq_true, if_false]
  repeat' split
  all_goals simp_all [Effects.app, Effects.nil]

theorem podStep_disabled (cfg : PodConfig) (reach : Bool) (i : Nat)
    (st : String × String) (m : MailMsg) (hen : cfg.enabled = false) :
    ((podStep cfg reach i st m).1).wol = [] ∧
    ((podStep cfg reach i st m).1).remote = [] ∧
    ((podStep cfg reach i st m).2.1).1 = st.1 := by
  unfold podStep
  simp only [hen]
  repeat' split
  all_goals simp_all [Effects.app, Effects.nil]

theorem podChangeCrontab_dry (cfg : PodConfig) (reach : Bool) (mailer cron st : String)
    (hd : cfg.dry_run = true) :
    podChangeCrontab cfg reach mailer cron st =
      ((if reach then
          Effects.app { probes := [(cfg.nodeip, cfg.nodeport)] }
            { pushes := ["PowerOffDelay - PowerOffDelay sent by " ++ mailer ++ "\n"] }
        else { probes := [(cfg.nodeip, cfg.nodeport)] }), cron, st, reach, false) := by
  unfold podChangeCrontab
  cases reach <;> simp [hd, Effects.app]

theorem podStep_dry (cfg : PodConfig) (reach : Bool) (i : Nat)
    (st : String × String) (m : MailMsg) (hd : cfg.dry_run = true) :
    ((podStep cfg reach i st m).1).wol = [] ∧
    ((podStep cfg reach i st m).1).remote = [] ∧
    ((podStep cfg reach i st m).2.1).1 = st.1 := by
  unfold podStep
  simp only [podChangeCrontab_dry, hd]
  cases reach <;> (repeat' split) <;> simp_all [Effects.app, Effects.nil]


theorem pofbmStep_disabled (cfg : PofbmConfig) (reach : Bool) (i : Nat)
    (cron : String) (m : MailMsg) (hen : cfg.enabled = false) :
    ((pofbmStep cfg reach i cron m).1).wol = [] ∧
    ((pofbmStep cfg reach i cron m).1).remote = [] ∧
    (pofbmStep cfg reach i cron m).2.1 = cron := by
  unfold pofbmStep
  simp only [hen]
  repeat' split
  all_goals simp_all [Effects.app, Effects.nil]

theorem pofbmStep_dry_remote (cfg : PofbmConfig) (reach : Bool) (i : Nat)
    (cron : String) (m : MailMsg) (hd : cfg.dry_run = true) :
    ((pofbmStep cfg reach i cron m).1).wol = [] ∧
    ((pofbmStep cfg reach i cron m).1).remote = [] := by
  unfold pofbmStep
  simp only [hd, Bool.not_true, Bool.false_eq_true, if_false]
  repeat' split
  all_goals simp_all [Effects.app, Effects.nil]

theorem pocsStep_effects (cfg : PocsConfig) (reach : Bool) (i : Nat)
    (cron : String) (m : MailMsg) :
    ((pocsStep cfg reach i cron m).1).wol = [] ∧
    ((pocsStep cfg reach i cron m).1).remote = [] ∧
    (pocsStep cfg reach i cron m).2.1 = cron := by
  unfold pocsStep
  cases h : extractSender m.fromHeader <;> cases hv : cfg.verbose_logging <;>
    (repeat' split) <;> simp_all [Effects.app, Effects.nil, apply_ite]

theorem pmHandlePowerOffRequest_disabled (cfg : PMConfig) (reach : Bool)
    (cron sender : String) (hen : cfg.general.enabled = false) :
    pmHandlePowerOffRequest cfg reach cron sender =
      ({ mails := [(sender, pmDisabledBody)] }, cron, false) := by
  unfold pmHandlePowerOffRequest
  simp [hen]

theorem pmHandlePowerOffRequest_dry (cfg : PMConfig) (reach : Bool)
    (cron sender : String) (hd : cfg.general.dry_run = true) :
    pmHandlePowerOffRequest cfg reach cron sender =
      if cfg.general.enabled then
        (Effects.app { probes := [(cfg.node.ip, cfg.node.port)] }
          { mails := [(sender,
              if reach then pmBodyPoweringOff cfg.node.name
              else pmBodyAlreadyOff cfg.node.name)] }, cron, false)
      else ({ mails := [(sender, pmDisabledBody)] }, cron, false) := by
  unfold pmHandlePowerOffRequest
  cases h : cfg.general.enabled <;> simp [hd, h]

theorem pmPowerOffMsgStep_disabled (cfg : PMConfig) (pos : PowerOffSettings)
    (reach : Bool) (i : Nat) (cron : String) (m : MailMsg)
    (hen : cfg.general.enabled = false) :
    ((pmPowerOffMsgStep cfg pos reach i cron m).1).wol = [] ∧
    ((pmPowerOffMsgStep cfg pos reach i cron m).1).remote = [] ∧
    ((pmPowerOffMsgStep cfg pos reach i cron m).1).deleted = [] ∧
    (pmPowerOffMsgStep cfg pos reach i cron m).2.1 = cron := by
  unfold pmPowerOffMsgStep
  simp only [pmHandlePowerOffRequest_disabled cfg reach _ _ hen]
  repeat' split
  all_goals simp_all [Effects.app, Effects.nil]

theorem pmPowerOffMsgStep_dry (cfg : PMConfig) (pos : PowerOffSettings)
    (reach : Bool) (i : Nat) (cron : String) (m : MailMsg)
    (hd : cfg.general.dry_run = true) :
    ((pmPowerOffMsgStep cfg pos reach i cron m).1).wol = [] ∧
    ((pmPowerOffMsgStep cfg pos reach i cron m).1).remote = [] ∧
    (pmPowerOffMsgStep cfg pos reach i cron m).2.1 = cron := by
  unfold pmPowerOffMsgStep
  simp only [pmHandlePowerOffRequest_dry cfg reach _ _ hd]
  repeat' split
  all_goals simp_all [Effects.app, Effects.nil]

theorem pmPowerOnMsgStep_nil (cfg : PMConfig) (pon : PowerOnSettings)
    (i : Nat) (st : Unit) (m : MailMsg) :
    pmPowerOnMsgStep cfg pon i st m = (Effects.nil, st, false) := by
  unfold pmPowerOnMsgStep
  repeat' split
  all_goals simp_all

theorem pmExtendMsgStep_no_wol_remote (cfg : PMConfig) (es : ExtendSettings)
    (i : Nat) (cron : String) (m : MailMsg) :
    ((pmExtendMsgStep cfg es i cron m).1).wol = [] ∧
    ((pmExtendMsgStep cfg es i cron m).1).remote = [] ∧
    ((pmExtendMsgStep cfg es i cron m).1).deleted = [] := by
  unfold pmExtendMsgStep
  repeat' split
  all_goals (try simp_all [Effects.app, Effects.nil])
  all_goals (repeat' split)
  all_goals simp_all [Effects.app, Effects.nil]


theorem pmPowerOn_disabled (cfg : PMConfig) (reach : Bool)
    (hen : cfg.general.enabled = false) :
    pmPowerOn cfg reach = (Effects.nil, false) := by
  unfold pmPowerOn
  simp [hen]

theorem pmPowerOff_disabled (cfg : PMConfig) (reach : Bool) (cron : String)
    (hen : cfg.general.enabled = false) :
    pmPowerOff cfg reach cron = (Effects.nil, cron, false) := by
  unfold pmPowerOff
  simp [hen]

theorem pmPowerOn_dry (cfg : PMConfig) (reach : Bool)
    (hd : cfg.general.dry_run = true) :
    ((pmPowerOn cfg reach).1).wol = [] ∧ (pmPowerOn cfg reach).2 = false ∧
    ((pmPowerOn cfg reach).1).probes =
      (if cfg.general.enabled then [(cfg.node.ip, cfg.node.port)] else []) := by
  unfold pmPowerOn
  repeat' split
  all_goals simp_all [Effects.app, Effects.nil]

theorem pmPowerOff_dry (cfg : PMConfig) (reach : Bool) (cron : String)
    (hd : cfg.general.dry_run = true) :
    ((pmPowerOff cfg reach cron).1).remote = [] ∧
    (pmPowerOff cfg reach cron).2.1 = cron ∧
    ((pmPowerOff cfg reach cron).1).probes =
      (if cfg.general.enabled then [(cfg.node.ip, cfg.node.port)] else []) := by
  unfold pmPowerOff
  repeat' split
  all_goals simp_all [Effects.app, Effects.nil]

theorem pmPowerOnExtraLoop_dry (cfg : PMConfig) (alive : List String)
    (nodes : List ExtraNode) (hd : cfg.general.dry_run = true) :
    pmPowerOnExtraLoop cfg alive nodes = Effects.nil := by
  induction nodes with
  | nil => rfl
  | cons n rest ih => simp [pmPowerOnExtraLoop, hd, ih]

theorem pmPowerOffExtraLoop_dry (cfg : PMConfig) (alive : List String)
    (nodes : List ExtraNode) (hd : cfg.general.dry_run = true) :
    pmPowerOffExtraLoop cfg alive nodes = Effects.nil := by
  induction nodes with
  | nil => rfl
  | cons n rest ih => simp [pmPowerOffExtraLoop, hd, ih]

theorem pmPowerOnExtraNodes_disabled (cfg : PMConfig) (reach : Bool)
    (alive : List String) (hen : cfg.general.enabled = false) :
    pmPowerOnExtraNodes cfg reach alive = Effects.nil := by
  unfold pmPowerOnExtraNodes
  simp [hen]

theorem pmPowerOffExtraNodes_disabled (cfg : PMConfig) (reach : Bool)
    (alive : List String) (hen : cfg.general.enabled = false) :
    pmPowerOffExtraNodes cfg reach alive = Effects.nil := by
  unfold pmPowerOffExtraNodes
  simp [hen]

theorem pmPowerOnExtraNodes_dry (cfg : PMConfig) (reach : Bool)
    (alive : List String) (hd : cfg.general.dry_run = true) :
    ((pmPowerOnExtraNodes cfg reach alive).wol) = [] := by
  unfold pmPowerOnExtraNodes
  repeat' split
  all_goals simp_all [Effects.app, Effects.nil, pmPowerOnExtraLoop_dry]

theorem pmPowerOffExtraNodes_dry (cfg : PMConfig) (reach : Bool)
    (alive : List String) (hd : cfg.general.dry_run = true) :
    ((pmPowerOffExtraNodes cfg reach alive).remote) = [] := by
  unfold pmPowerOffExtraNodes
  repeat' split
  all_goals simp_all [Effects.app, Effects.nil, pmPowerOffExtraLoop_dry]

theorem poweronRun_disabled (cfg : PoweronConfig) (reach : Bool)
    (hen : cfg.enabled = false) : poweronRun cfg reach = Effects.nil := by
  unfold poweronRun
  simp [hen]

theorem poweronRun_dry (cfg : PoweronConfig) (reach : Bool)
    (hd : cfg.dry_run = true) :
    (poweronRun cfg reach).wol = [] ∧
    (poweronRun cfg reach).probes =
      (if cfg.enabled then [(cfg.nodeip, cfg.nodeport)] else []) := by
  unfold poweronRun
  repeat' split
  all_goals simp_all [Effects.app, Effects.nil]

theorem poweroffRun_disabled (cfg : PoweroffConfig) (reach : Bool)
    (cron : String) (hen : cfg.enabled = false) :
    poweroffRun cfg reach cron = (Effects.nil, cron, false) := by
  unfold poweroffRun
  simp [hen]

theorem poweroffRun_dry_remote (cfg : PoweroffConfig) (reach : Bool)
    (cron : String) (hd : cfg.dry_run = true) :
    ((poweroffRun cfg reach cron).1).remote = [] ∧
    ((poweroffRun cfg reach cron).1).probes =
      (if cfg.enabled then [(cfg.nodeip, cfg.nodeport)] else []) := by
  unfold poweroffRun
  repeat' split
  all_goals simp_all [Effects.app, Effects.nil]

theorem ponenRun_disabled (cfg : PonenConfig) (reach : Bool)
    (alive : List String) (hen : cfg.enabled = false) :
    ponenRun cfg reach alive = (Effects.nil, false) := by
  unfold ponenRun
  simp [hen]

theorem pofenRun_disabled (cfg : PofenConfig) (reach : Bool)
    (alive : List String) (hen : cfg.enabled = false) :
    pofenRun cfg reach alive = (Effects.nil, false) := by
  unfold pofenRun
  simp [hen]

theorem anRun_disabled (cfg : AnConfig) (reach : Bool)
    (arpFound : List String) (hen : cfg.enabled = false) :
    anRun cfg reach arpFound = (Effects.nil, false) := by
  unfold anRun
  simp [hen]

theorem ponenRun_dry (cfg : PonenConfig) (reach : Bool) (alive : List String)
    (hd : cfg.dry_run = true) : ((ponenRun cfg reach alive).1).wol = [] := by
  unfold ponenRun
  repeat' split
  all_goals simp_all [Effects.app, Effects.nil]

theorem pofenRun_dry (cfg : PofenConfig) (reach : Bool) (alive : List String)
    (hd : cfg.dry_run = true) : ((pofenRun cfg reach alive).1).remote = [] := by
  unfold pofenRun
  repeat' split
  all_goals simp_all [Effects.app, Effects.nil]

theorem anRun_dry (cfg : AnConfig) (reach : Bool) (arpFound : List String)
    (hd : cfg.dry_run = true) : ((anRun cfg reach arpFound).1).wol = [] := by
  unfold anRun
  repeat' split
  all_goals simp_all [Effects.app, Effects.nil]


theorem pobeStep_unauthorized (cfg : PobeConfig) (reach : Bool) (i : Nat)
    (cr : Credits) (m : MailMsg) (s : String)
    (hsubj : pyLower m.subject = pyLower cfg.keyword)
    (hs : extractSender m.fromHeader = some s)
    (hnot : s ∉ cfg.allowed_senders) :
    pobeStep cfg reach i cr m =
      ((if cfg.dry_run then Effects.nil else { deleted := [i] }), cr, false) := by
  unfold pobeStep
  cases hd : cfg.dry_run <;> simp_all

theorem podStep_unauthorized (cfg : PodConfig) (reach : Bool) (i : Nat)
    (st : String × String) (m : MailMsg) (s : String)
    (hsubj : pyLower m.subject = pyLower cfg.keyword)
    (hs : extractSender m.fromHeader = some s)
    (hnot : s ∉ cfg.allowed_senders) :
    podStep cfg reach i st m =
      ((if cfg.dry_run then Effects.nil else { deleted := [i] }), st, false) := by
  unfold podStep
  cases hd : cfg.dry_run <;> simp_all

theorem pmPowerOffMsgStep_unauthorized (cfg : PMConfig)
    (pos : PowerOffSettings) (reach : Bool) (i : Nat) (cron : String)
    (m : MailMsg) (s : String) (l : List String) (kw : String)
    (hkw : pos.keyword = some kw)
    (hsubj : pyLower m.subject = pyLower kw)
    (hs : extractSender m.fromHeader = some s)
    (hl : pos.allowed_senders = some l) (hne : l ≠ []) (hnot : s ∉ l) :
    pmPowerOffMsgStep cfg pos reach i cron m = (Effects.nil, cron, false) := by
  unfold pmPowerOffMsgStep
  simp_all

theorem pmPowerOnMsgStep_unauthorized (cfg : PMConfig) (pon : PowerOnSettings)
    (i : Nat) (st : Unit) (m : MailMsg) (s : String)
    (hsubj : pyLower m.subject = pyLower pon.keyword)
    (hs : extractSender m.fromHeader = some s)
    (hnot : s ∉ pon.allowed_senders) :
    pmPowerOnMsgStep cfg pon i st m = (Effects.nil, st, false) := by
  unfold pmPowerOnMsgStep
  simp_all

theorem pmExtendLines_nomatch (es : ExtendSettings) (e : Int)
    (lines : List String)
    (h : ∀ l ∈ lines, strContainsSub l "poweroff.py" = false) :
    pmExtendLines es e lines = .ok (lines, none) := by
  induction lines with
  | nil => rfl
  | cons l ls ih =>
      have hl : strContainsSub l "poweroff.py" = false := h l (by simp)
      simp [pmExtendLines, hl, ih (fun x hx => h x (by simp [hx]))]

theorem resetCronLines_decomp (dh dm mh p0 p1 : String) (rest : List String)
    (pre post : List String) (line : String)
    (hpre : ∀ l ∈ pre, strContainsSub l "poweroff.py" = false)
    (hline : strContainsSub line "poweroff.py" = true)
    (hsplit : pySplitWs line = p0 :: p1 :: rest) :
    resetCronLines dh dm mh (pre ++ line :: post) =
      .ok (pre ++ joinSpace (dm :: (dh ++ "," ++ mh) :: rest) :: post) := by
  induction pre with
  | nil => simp [resetCronLines, hline, resetCronLine, hsplit]
  | cons l ls ih =>
      have hl : strContainsSub l "poweroff.py" = false := hpre l (by simp)
      simp [resetCronLines, hl, ih (fun x hx => hpre x (by simp [hx]))]


theorem pmUpdateCronDefault_decomp (es : ExtendSettings) (cron : String)
    (pre post rest : List String) (line p0 p1 : String)
    (hlines : pySplitLinesOf cron = pre ++ line :: post)
    (hpre : ∀ l ∈ pre, strContainsSub l "poweroff.py" = false)
    (hline : strContainsSub line "poweroff.py" = true)
    (hsplit : pySplitWs line = p0 :: p1 :: rest) :
    pmUpdateCronDefault es cron =
      .ok (joinNl (pre ++ joinSpace (es.default_minutes ::
        (es.default_hour ++ "," ++ es.max_hour) :: rest) :: post)) := by
  unfold pmUpdateCronDefault
  rw [hlines, resetCronLines_decomp _ _ _ p0 p1 rest pre post line hpre hline hsplit]

theorem legacyResetCron_decomp (dh dm mh : String) (cron : String)
    (pre post rest : List String) (line p0 p1 : String)
    (hlines : splitNl cron = pre ++ line :: post)
    (hpre : ∀ l ∈ pre, strContainsSub l "poweroff.py" = false)
    (hline : strContainsSub line "poweroff.py" = true)
    (hsplit : pySplitWs line = p0 :: p1 :: rest) :
    legacyResetCron dh dm mh cron =
      .ok (joinNl (pre ++ joinSpace (dm :: (dh ++ "," ++ mh) :: rest) :: post)) := by
  unfold legacyResetCron
  rw [hlines, resetCronLines_decomp _ _ _ p0 p1 rest pre post line hpre hline hsplit]

theorem pmPowerOff_reset (cfg : PMConfig) (reach : Bool) (cron : String)
    (es : ExtendSettings) (pre post rest : List String) (line p0 p1 : String)
    (hes : cfg.extend_settings = some es)
    (hlines : pySplitLinesOf cron = pre ++ line :: post)
    (hpre : ∀ l ∈ pre, strContainsSub l "poweroff.py" = false)
    (hline : strContainsSub line "poweroff.py" = true)
    (hsplit : pySplitWs line = p0 :: p1 :: rest) :
    ((pmPowerOff cfg reach cron).1).remote ≠ [] →
      (pmPowerOff cfg reach cron).2.1 =
        joinNl (pre ++ joinSpace (es.default_minutes ::
          (es.default_hour ++ "," ++ es.max_hour) :: rest) :: post) ∧
      (pmPowerOff cfg reach cron).2.2 = false := by
  have hupd := pmUpdateCronDefault_decomp es cron pre post rest line p0 p1
    hlines hpre hline hsplit
  unfold pmPowerOff
  simp only [hes, hupd]
  repeat' split
  all_goals simp_all [Effects.app, Effects.nil]

theorem pmHandlePowerOffRequest_reset (cfg : PMConfig) (reach : Bool)
    (cron sender : String)
    (es : ExtendSettings) (pre post rest : List String) (line p0 p1 : String)
    (hes : cfg.extend_settings = some es)
    (hlines : pySplitLinesOf cron = pre ++ line :: post)
    (hpre : ∀ l ∈ pre, strContainsSub l "poweroff.py" = false)
    (hline : strContainsSub line "poweroff.py" = true)
    (hsplit : pySplitWs line = p0 :: p1 :: rest) :
    ((pmHandlePowerOffRequest cfg reach cron sender).1).remote ≠ [] →
      (pmHandlePowerOffRequest cfg reach cron sender).2.1 =
        joinNl (pre ++ joinSpace (es.default_minutes ::
          (es.default_hour ++ "," ++ es.max_hour) :: rest) :: post) ∧
      (pmHandlePowerOffRequest cfg reach cron sender).2.2 = false := by
  have hupd := pmUpdateCronDefault_decomp es cron pre post rest line p0 p1
    hlines hpre hline hsplit
  unfold pmHandlePowerOffRequest
  simp only [hes, hupd]
  repeat' split
  all_goals simp_all [Effects.app, Effects.nil]

theorem poweroffRun_reset (cfg : PoweroffConfig) (reach : Bool) (cron : String)
    (pre post rest : List String) (line p0 p1 : String)
    (hlines : splitNl cron = pre ++ line :: post)
    (hpre : ∀ l ∈ pre, strContainsSub l "poweroff.py" = false)
    (hline : strContainsSub line "poweroff.py" = true)
    (hsplit : pySplitWs line = p0 :: p1 :: rest) :
    ((poweroffRun cfg reach cron).1).remote ≠ [] →
      (poweroffRun cfg reach cron).2.1 =
        joinNl (pre ++ joinSpace (cfg.defaultminutes ::
          (cfg.defaulthour ++ "," ++ cfg.maxhour) :: rest) :: post) ∧
      (poweroffRun cfg reach cron).2.2 = false := by
  have hupd := legacyResetCron_decomp cfg.defaulthour cfg.defaultminutes
    cfg.maxhour cron pre post rest line p0 p1 hlines hpre hline hsplit
  unfold poweroffRun
  simp only [hupd]
  repeat' split
  all_goals simp_all [Effects.app, Effects.nil]

theorem pofbmStep_reset (cfg : PofbmConfig) (reach : Bool) (i : Nat)
    (cron : String) (m : MailMsg)
    (pre post rest : List String) (line p0 p1 : String)
    (hlines : splitNl cron = pre ++ line :: post)
    (hpre : ∀ l ∈ pre, strContainsSub l "poweroff.py" = false)
    (hline : strContainsSub line "poweroff.py" = true)
    (hsplit : pySplitWs line = p0 :: p1 :: rest) :
    ((pofbmStep cfg reach i cron m).1).remote ≠ [] →
      (pofbmStep cfg reach i cron m).2.1 =
        joinNl (pre ++ joinSpace (cfg.defaultminutes ::
          (cfg.defaulthour ++ "," ++ cfg.maxhour) :: rest) :: post) ∧
      (pofbmStep cfg reach i cron m).2.2 = false := by
  have hupd := legacyResetCron_decomp cfg.defaulthour cfg.defaultminutes
    cfg.maxhour cron pre post rest line p0 p1 hlines hpre hline hsplit
  unfold pofbmStep
  simp only [hupd]
  repeat' split
  all_goals simp_all [Effects.app, Effects.nil]

theorem pmExtendCron_nomatch (es : ExtendSettings) (e : Int) (cron : String)
    (h : ∀ l ∈ pySplitLinesOf cron, strContainsSub l "poweroff.py" = false) :
    pmExtendCron es e cron = .ok (joinNl (pySplitLinesOf cron), none) := by
  unfold pmExtendCron
  rw [pmExtendLines_nomatch es e _ h]

theorem pyInt_toString_of_mod24 (n : Int) (h0 : 0 ≤ n) (h24 : n < 24) :
    pyInt (toString n) = some n := by
  interval_cases n <;> rfl


theorem pobeRun_disabled (cfg : PobeConfig) (reach : Bool) (cr : Credits)
    (mailbox : List MailMsg) (hen : cfg.enabled = false) :
    ((pobeRun cfg reach cr mailbox).eff).wol = [] ∧
    ((pobeRun cfg reach cr mailbox).eff).remote = [] := by
  exact ⟨runMsgs_proj_nil Effects.wol rfl Effects.app_wol _
      (fun i st m => (pobeStep_disabled cfg reach i st m hen).1) 1 cr mailbox,
    runMsgs_proj_nil Effects.remote rfl Effects.app_remote _
      (fun i st m => (pobeStep_disabled cfg reach i st m hen).2) 1 cr mailbox⟩

theorem pobeRun_dry (cfg : PobeConfig) (reach : Bool) (cr : Credits)
    (mailbox : List MailMsg) (hd : cfg.dry_run = true) :
    ((pobeRun cfg reach cr mailbox).eff).wol = [] ∧
    ((pobeRun cfg reach cr mailbox).eff).remote = [] := by
  exact ⟨runMsgs_proj_nil Effects.wol rfl Effects.app_wol _
      (fun i st m => (pobeStep_dry_wol cfg reach i st m hd).1) 1 cr mailbox,
    runMsgs_proj_nil Effects.remote rfl Effects.app_remote _
      (fun i st m => (pobeStep_dry_wol cfg reach i st m hd).2) 1 cr mailbox⟩

theorem podRun_disabled (cfg : PodConfig) (reach : Bool) (cron : String)
    (mailbox : List MailMsg) (hen : cfg.enabled = false) :
    ((podRun cfg reach cron mailbox).1).wol = [] ∧
    ((podRun cfg reach cron mailbox).1).remote = [] ∧
    ((podRun cfg reach cron mailbox).2.1).1 = cron := by
  exact ⟨runMsgs_proj_nil Effects.wol rfl Effects.app_wol _
      (fun i st m => (podStep_disabled cfg reach i st m hen).1) 1 (cron, "00:00") mailbox,
    runMsgs_proj_nil Effects.remote rfl Effects.app_remote _
      (fun i st m => (podStep_disabled cfg reach i st m hen).2.1) 1 (cron, "00:00") mailbox,
    runMsgs_state_eq (fun st => st.1) _
      (fun i st m => (podStep_disabled cfg reach i st m hen).2.2) 1 (cron, "00:00") mailbox⟩

theorem podRun_dry (cfg : PodConfig) (reach : Bool) (cron : String)
    (mailbox : List MailMsg) (hd : cfg.dry_run = true) :
    ((podRun cfg reach cron mailbox).1).wol = [] ∧
    ((podRun cfg reach cron mailbox).1).remote = [] ∧
    ((podRun cfg reach cron mailbox).2.1).1 = cron := by
  exact ⟨runMsgs_proj_nil Effects.wol rfl Effects.app_wol _
      (fun i st m => (podStep_dry cfg reach i st m hd).1) 1 (cron, "00:00") mailbox,
    runMsgs_proj_nil Effects.remote rfl Effects.app_remote _
      (fun i st m => (podStep_dry cfg reach i st m hd).2.1) 1 (cron, "00:00") mailbox,
    runMsgs_state_eq (fun st => st.1) _
      (fun i st m => (podStep_dry cfg reach i st m hd).2.2) 1 (cron, "00:00") mailbox⟩

theorem pofbmRun_disabled (cfg : PofbmConfig) (reach : Bool) (cron : String)
    (mailbox : List MailMsg) (hen : cfg.enabled = false) :
    ((pofbmRun cfg reach cron mailbox).1).wol = [] ∧
    ((pofbmRun cfg reach cron mailbox).1).remote = [] ∧
    (pofbmRun cfg reach cron mailbox).2.1 = cron := by
  exact ⟨runMsgs_proj_nil Effects.wol rfl Effects.app_wol _
      (fun i st m => (pofbmStep_disabled cfg reach i st m hen).1) 1 cron mailbox,
    runMsgs_proj_nil Effects.remote rfl Effects.app_remote _
      (fun i st m => (pofbmStep_disabled cfg reach i st m hen).2.1) 1 cron mailbox,
    runMsgs_state_eq (fun st => st) _
      (fun i st m => (pofbmStep_disabled cfg reach i st m hen).2.2) 1 cron mailbox⟩

theorem pofbmRun_dry (cfg : PofbmConfig) (reach : Bool) (cron : String)
    (mailbox : List MailMsg) (hd : cfg.dry_run = true) :
    ((pofbmRun cfg reach cron mailbox).1).wol = [] ∧
    ((pofbmRun cfg reach cron mailbox).1).remote = [] := by
  exact ⟨runMsgs_proj_nil Effects.wol rfl Effects.app_wol _
      (fun i st m => (pofbmStep_dry_remote cfg reach i st m hd).1) 1 cron mailbox,
    runMsgs_proj_nil Effects.remote rfl Effects.app_remote _
      (fun i st m => (pofbmStep_dry_remote cfg reach i st m hd).2) 1 cron mailbox⟩

theorem pocsRun_effects (cfg : PocsConfig) (reach : Bool) (cron : String)
    (mailbox : List MailMsg) :
    ((pocsRun cfg reach cron mailbox).1).wol = [] ∧
    ((pocsRun cfg reach cron mailbox).1).remote = [] ∧
    (pocsRun cfg reach cron mailbox).2.1 = cron := by
  exact ⟨runMsgs_proj_nil Effects.wol rfl Effects.app_wol _
      (fun i st m => (pocsStep_effects cfg reach i st m).1) 1 cron mailbox,
    runMsgs_proj_nil Effects.remote rfl Effects.app_remote _
      (fun i st m => (pocsStep_effects cfg reach i st m).2.1) 1 cron mailbox,
    runMsgs_state_eq (fun st => st) _
      (fun i st m => (pocsStep_effects cfg reach i st m).2.2) 1 cron mailbox⟩

theorem pmPowerOnFromMail_effects (cfg : PMConfig) (mailbox : List MailMsg) :
    ((pmPowerOnFromMail cfg mailbox).1).wol = [] ∧
    ((pmPowerOnFromMail cfg mailbox).1).remote = [] := by
  unfold pmPowerOnFromMail
  constructor
  · split
    · exact runMsgs_proj_nil Effects.wol rfl Effects.app_wol _
        (fun i st m => by rw [pmPowerOnMsgStep_nil]; rfl) 1 () mailbox
    · rfl
  · split
    · exact runMsgs_proj_nil Effects.remote rfl Effects.app_remote _
        (fun i st m => by rw [pmPowerOnMsgStep_nil]; rfl) 1 () mailbox
    · rfl

theorem pmPowerOffFromMail_disabled (cfg : PMConfig) (reach : Bool)
    (cron : String) (mailbox : List MailMsg)
    (hen : cfg.general.enabled = false) :
    ((pmPowerOffFromMail cfg reach cron mailbox).1).wol = [] ∧
    ((pmPowerOffFromMail cfg reach cron mailbox).1).remote = [] ∧
    ((pmPowerOffFromMail cfg reach cron mailbox).1).deleted = [] ∧
    (pmPowerOffFromMail cfg reach cron mailbox).2.1 = cron := by
  unfold pmPowerOffFromMail
  split
  case h_1 pos heq _ =>
    exact ⟨runMsgs_proj_nil Effects.wol rfl Effects.app_wol _
        (fun i st m => (pmPowerOffMsgStep_disabled cfg pos reach i st m hen).1) 1 cron mailbox,
      runMsgs_proj_nil Effects.remote rfl Effects.app_remote _
        (fun i st m => (pmPowerOffMsgStep_disabled cfg pos reach i st m hen).2.1) 1 cron mailbox,
      runMsgs_proj_nil Effects.deleted rfl Effects.app_deleted _
        (fun i st m => (pmPowerOffMsgStep_disabled cfg pos reach i st m hen).2.2.1) 1 cron mailbox,
      runMsgs_state_eq (fun st => st) _
        (fun i st m => (pmPowerOffMsgStep_disabled cfg pos reach i st m hen).2.2.2) 1 cron mailbox⟩
  case h_2 => exact ⟨rfl, rfl, rfl, rfl⟩

theorem pmPowerOffFromMail_dry (cfg : PMConfig) (reach : Bool)
    (cron : String) (mailbox : List MailMsg)
    (hd : cfg.general.dry_run = true) :
    ((pmPowerOffFromMail cfg reach cron mailbox).1).wol = [] ∧
    ((pmPowerOffFromMail cfg reach cron mailbox).1).remote = [] ∧
    (pmPowerOffFromMail cfg reach cron mailbox).2.1 = cron := by
  unfold pmPowerOffFromMail
  split
  case h_1 pos heq _ =>
    exact ⟨runMsgs_proj_nil Effects.wol rfl Effects.app_wol _
        (fun i st m => (pmPowerOffMsgStep_dry cfg pos reach i st m hd).1) 1 cron mailbox,
      runMsgs_proj_nil Effects.remote rfl Effects.app_remote _
        (fun i st m => (pmPowerOffMsgStep_dry cfg pos reach i st m hd).2.1) 1 cron mailbox,
      runMsgs_state_eq (fun st => st) _
        (fun i st m => (pmPowerOffMsgStep_dry cfg pos reach i st m hd).2.2) 1 cron mailbox⟩
  case h_2 => exact ⟨rfl, rfl, rfl⟩

theorem pmExtendShutdownFromMail_effects (cfg : PMConfig) (cron : String)
    (mailbox : List MailMsg) :
    ((pmExtendShutdownFromMail cfg cron mailbox).1).wol = [] ∧
    ((pmExtendShutdownFromMail cfg cron mailbox).1).remote = [] := by
  unfold pmExtendShutdownFromMail
  constructor
  · split
    · exact runMsgs_proj_nil Effects.wol rfl Effects.app_wol _
        (fun i st m => (pmExtendMsgStep_no_wol_remote cfg _ i st m).1) 1 cron mailbox
    · rfl
  · split
    · exact runMsgs_proj_nil Effects.remote rfl Effects.app_remote _
        (fun i st m => (pmExtendMsgStep_no_wol_remote cfg _ i st m).2.1) 1 cron mailbox
    · rfl


theorem pofbmStep_unauthorized (cfg : PofbmConfig) (reach : Bool) (i : Nat)
    (cron : String) (m : MailMsg) (s : String)
    (hsubj : pyLower m.subject = pyLower cfg.keyword)
    (hs : extractSender m.fromHeader = some s)
    (hnot : s ∉ cfg.allowed_senders) :
    pofbmStep cfg reach i cron m =
      ((if cfg.dry_run then Effects.nil else { deleted := [i] }), cron, false) := by
  unfold pofbmStep
  cases hd : cfg.dry_run <;> simp_all



/-- C1: the claim states one ceiling rule for both implementations
(`ceiling = 24` when `maxHour` is `0`/`"00"`, else `maxHour`), but
`POD.changeCrontab` compares against `int(maxhour)` with no special case:
with `maxHour = "0"`, `h0 = 20`, `extendHours = 5` the new hour `1` is
below the claimed ceiling `24`, so the claim requires the hour field
`"1,0"`, while the code clamps the hour field to `"0"` alone and returns
`"00:30"`. -/
theorem claim_C1_counterexample :
    podExtendLine "5" "0" "30 20 * * * /app/poweroff.py" =
      .ok ("30 0 * * * /app/poweroff.py", "00:30") ∧
    claimC1Rule 20 5 0 "0" = "1,0" ∧
    (pySplitWs "30 0 * * * /app/poweroff.py").getD 1 "" = "0" ∧
    ("0" : String) ≠ "1,0" :=
  ⟨rfl, rfl, rfl, by decide⟩

/-- C1 (amended): on a schedule line whose hour field parses, both
implementations compute `newHour = (h0 + extendHours) mod 24`;
`PowerManager._extend_cron_schedule` clamps at ceiling `24` when
`maxHour ∈ {"0","00"}` and `int(maxHour)` otherwise, writing the
zero-padded `"{newHour},{maxHour}"`, while `POD.changeCrontab` clamps at
`int(maxHour)` with no special case and writes `newHour` unpadded; the
returned shutdown time is `"{newHour}:{minuteField}"` (or
`"{maxHour}:{minuteField}"` when clamped), with the minute taken from the
schedule line itself. -/
theorem claim_C1_extend_arithmetic (es : ExtendSettings)
    (ehs line p0 p1 h0s : String) (rest tl : List String) (h0 e mh : Int)
    (hsplit : pySplitWs line = p0 :: p1 :: rest)
    (hcomma : splitComma p1 = h0s :: tl)
    (hh0 : pyInt h0s = some h0)
    (hmh : pyInt es.max_hour = some mh)
    (heh : pyInt ehs = some e) :
    (pmExtendLine es e line =
      if (h0 + e) % 24 ≥ (if es.max_hour = "0" ∨ es.max_hour = "00" then (24 : Int) else mh) then
        .ok (joinSpace (p0 :: es.max_hour :: rest),
             zfill 2 es.max_hour ++ ":" ++ zfill 2 p0)
      else
        .ok (joinSpace (p0 :: (zfill 2 (toString ((h0 + e) % 24)) ++ "," ++ es.max_hour) :: rest),
             zfill 2 (toString ((h0 + e) % 24)) ++ ":" ++ zfill 2 p0)) ∧
    (podExtendLine ehs es.max_hour line =
      if (h0 + e) % 24 ≥ mh then
        .ok (joinSpace (p0 :: es.max_hour :: rest),
             zfill 2 es.max_hour ++ ":" ++ zfill 2 p0)
      else
        .ok (joinSpace (p0 :: (toString ((h0 + e) % 24) ++ "," ++ es.max_hour) :: rest),
             zfill 2 (toString ((h0 + e) % 24)) ++ ":" ++ zfill 2 p0)) := by
  have hmod0 : (0 : Int) ≤ (h0 + e) % 24 := Int.emod_nonneg _ (by norm_num)
  have hmod24 : (h0 + e) % 24 < 24 := Int.emod_lt_of_pos _ (by norm_num)
  have hts := pyInt_toString_of_mod24 _ hmod0 hmod24
  constructor
  · unfold pmExtendLine
    simp only [hsplit, hcomma, hh0]
    by_cases hz : es.max_hour = "0" ∨ es.max_hour = "00"
    · simp [hz]
    · simp [hz, hmh]
  · unfold podExtendLine
    simp only [hsplit, hcomma, hh0, heh, hts, hmh]

/-- C1 witness: the specification scenario `h0 = 20, extendHours = 5,
maxHour = 23` on the line `45 20 * * * /app/poweroff.py`. -/
theorem claim_C1_extend_arithmetic_witness :
    pySplitWs "45 20 * * * /app/poweroff.py" =
      "45" :: "20" :: ["*", "*", "*", "/app/poweroff.py"] ∧
    splitComma "20" = "20" :: [] ∧
    pyInt "20" = some 20 ∧ pyInt esSample.max_hour = some 23 ∧
    pyInt "5" = some 5 ∧
    pmExtendLine esSample 5 "45 20 * * * /app/poweroff.py" =
      .ok ("45 01,23 * * * /app/poweroff.py", "01:45") ∧
    podExtendLine "5" esSample.max_hour "45 20 * * * /app/poweroff.py" =
      .ok ("45 1,23 * * * /app/poweroff.py", "01:45") :=
  ⟨rfl, rfl, rfl, rfl, rfl,
    ((claim_C1_extend_arithmetic esSample "5" "45 20 * * * /app/poweroff.py"
      "45" "20" "20" ["*", "*", "*", "/app/poweroff.py"] [] 20 5 23
      rfl rfl rfl rfl rfl).1).trans (by rfl),
    ((claim_C1_extend_arithmetic esSample "5" "45 20 * * * /app/poweroff.py"
      "45" "20" "20" ["*", "*", "*", "/app/poweroff.py"] [] 20 5 23
      rfl rfl rfl rfl rfl).2).trans (by rfl)⟩

/-- C2: the claim is violated by `PowerManager.extend_shutdown_from_mail`,
which never consults `enabled`: with the service disabled, a single
authorized extension mail still rewrites the schedule file. -/
theorem claim_C2_counterexample :
    (pmSample false false).general.enabled = false ∧
    (pmExtendShutdownFromMail (pmSample false false) cronSample [msgDelay]).2.1 =
      "45 11,23 * * * /usr/bin/python3 /app/poweroff.py" ∧
    (pmExtendShutdownFromMail (pmSample false false) cronSample [msgDelay]).2.1 ≠
      cronSample :=
  ⟨rfl, rfl, by decide⟩

/-- C2 (amended): with `enabled = false` no magic packet is sent and no
remote shutdown command is run on any cron- or mail-triggered flow, for
any mailbox contents and environment, and the schedule file is left
unchanged on every flow except `PowerManager.extend_shutdown_from_mail`
(which ignores `enabled`; on the remaining flows only logging, the
disabled-state reply and, in the legacy mail scripts, the deletion mark
are produced). -/
theorem claim_C2_disabled_no_actions
    (pmc : PMConfig) (bc : PobeConfig) (dc : PodConfig) (fc : PofbmConfig)
    (cc : PocsConfig) (oc : PoweroffConfig) (nc : PoweronConfig)
    (ec : PonenConfig) (xc : PofenConfig) (ac : AnConfig)
    (reach : Bool) (alive arp : List String) (cron : String)
    (mailbox : List MailMsg) (cr : Credits)
    (h1 : pmc.general.enabled = false) (h2 : bc.enabled = false)
    (h3 : dc.enabled = false) (h4 : fc.enabled = false)
    (h6 : oc.enabled = false) (h7 : nc.enabled = false)
    (h8 : ec.enabled = false) (h9 : xc.enabled = false)
    (h10 : ac.enabled = false) :
    pmPowerOn pmc reach = (Effects.nil, false) ∧
    pmPowerOff pmc reach cron = (Effects.nil, cron, false) ∧
    ((pmPowerOnFromMail pmc mailbox).1).wol = [] ∧
    ((pmPowerOnFromMail pmc mailbox).1).remote = [] ∧
    ((pmPowerOffFromMail pmc reach cron mailbox).1).wol = [] ∧
    ((pmPowerOffFromMail pmc reach cron mailbox).1).remote = [] ∧
    (pmPowerOffFromMail pmc reach cron mailbox).2.1 = cron ∧
    ((pmExtendShutdownFromMail pmc cron mailbox).1).wol = [] ∧
    ((pmExtendShutdownFromMail pmc cron mailbox).1).remote = [] ∧
    pmPowerOnExtraNodes pmc reach alive = Effects.nil ∧
    pmPowerOffExtraNodes pmc reach alive = Effects.nil ∧
    ((pobeRun bc reach cr mailbox).eff).wol = [] ∧
    ((pobeRun bc reach cr mailbox).eff).remote = [] ∧
    ((podRun dc reach cron mailbox).1).wol = [] ∧
    ((podRun dc reach cron mailbox).1).remote = [] ∧
    ((podRun dc reach cron mailbox).2.1).1 = cron ∧
    ((pofbmRun fc reach cron mailbox).1).wol = [] ∧
    ((pofbmRun fc reach cron mailbox).1).remote = [] ∧
    (pofbmRun fc reach cron mailbox).2.1 = cron ∧
    ((pocsRun cc reach cron mailbox).1).wol = [] ∧
    ((pocsRun cc reach cron mailbox).1).remote = [] ∧
    (pocsRun cc reach cron mailbox).2.1 = cron ∧
    poweroffRun oc reach cron = (Effects.nil, cron, false) ∧
    poweronRun nc reach = Effects.nil ∧
    ponenRun ec reach alive = (Effects.nil, false) ∧
    pofenRun xc reach alive = (Effects.nil, false) ∧
    anRun ac reach arp = (Effects.nil, false) :=
  ⟨pmPowerOn_disabled pmc reach h1,
   pmPowerOff_disabled pmc reach cron h1,
   (pmPowerOnFromMail_effects pmc mailbox).1,
   (pmPowerOnFromMail_effects pmc mailbox).2,
   (pmPowerOffFromMail_disabled pmc reach cron mailbox h1).1,
   (pmPowerOffFromMail_disabled pmc reach cron mailbox h1).2.1,
   (pmPowerOffFromMail_disabled pmc reach cron mailbox h1).2.2.2,
   (pmExtendShutdownFromMail_effects pmc cron mailbox).1,
   (pmExtendShutdownFromMail_effects pmc cron mailbox).2,
   pmPowerOnExtraNodes_disabled pmc reach alive h1,
   pmPowerOffExtraNodes_disabled pmc reach alive h1,
   (pobeRun_disabled bc reach cr mailbox h2).1,
   (pobeRun_disabled bc reach cr mailbox h2).2,
   (podRun_disabled dc reach cron mailbox h3).1,
   (podRun_disabled dc reach cron mailbox h3).2.1,
   (podRun_disabled dc reach cron mailbox h3).2.2,
   (pofbmRun_disabled fc reach cron mailbox h4).1,
   (pofbmRun_disabled fc reach cron mailbox h4).2.1,
   (pofbmRun_disabled fc reach cron mailbox h4).2.2,
   (pocsRun_effects cc reach cron mailbox).1,
   (pocsRun_effects cc reach cron mailbox).2.1,
   (pocsRun_effects cc reach cron mailbox).2.2,
   poweroffRun_disabled oc reach cron h6,
   poweronRun_disabled nc reach h7,
   ponenRun_disabled ec reach alive h8,
   pofenRun_disabled xc reach alive h9,
   anRun_disabled ac reach arp h10⟩

/-- C2 witness at concrete disabled configurations and a nonempty
eligible mailbox. -/
theorem claim_C2_disabled_no_actions_witness :
    (pmSample false false).general.enabled = false ∧
    (pobeSample false false).enabled = false ∧
    (podSample false false).enabled = false ∧
    (pofbmSample false false).enabled = false ∧
    (poweroffSample false false).enabled = false ∧
    (poweronSample false false).enabled = false ∧
    (ponenSample false false).enabled = false ∧
    (pofenSample false false).enabled = false ∧
    (anSample false false).enabled = false ∧
    pmPowerOn (pmSample false false) true = (Effects.nil, false) :=
  ⟨rfl, rfl, rfl, rfl, rfl, rfl, rfl, rfl, rfl,
   (claim_C2_disabled_no_actions (pmSample false false) (pobeSample false false)
     (podSample false false) (pofbmSample false false) (pocsSample false false)
     (poweroffSample false false) (poweronSample false false)
     (ponenSample false false) (pofenSample false false) (anSample false false)
     true [] [] cronSample [msgWake, msgDelay, msgSleep] []
     rfl rfl rfl rfl rfl rfl rfl rfl rfl).1⟩

/-- C3: two flows mutate the schedule file even in dry-run:
`PowerManager.extend_shutdown_from_mail` (no dry-run check around
`_extend_cron_schedule`) and the cron-triggered `poweroff.py`, whose
schedule reset sits outside the dry-run guard. -/
theorem claim_C3_counterexample :
    (pmSample true true).general.dry_run = true ∧
    (pmExtendShutdownFromMail (pmSample true true) cronSample [msgDelay]).2.1 ≠
      cronSample ∧
    (poweroffSample true true).dry_run = true ∧
    (poweroffRun (poweroffSample true true) true cronSample).2.1 =
      "30 7,23 * * * /usr/bin/python3 /app/poweroff.py" ∧
    (poweroffRun (poweroffSample true true) true cronSample).2.1 ≠ cronSample :=
  ⟨rfl, by decide, rfl, rfl, by decide⟩

/-- C3 (amended): with `dryRun = true` no flow sends a magic packet or
runs a remote command; the primary-node reachability probe of the
cron-triggered flows is evaluated exactly as in a live run (probing iff
enabled); and the schedule file is unchanged on every flow except
`PowerManager.extend_shutdown_from_mail`, `poweroff.py` and
`poweroffbymail.py`, whose schedule writes are not dry-run-guarded
(extra-node ping checks are skipped in dry-run). -/
theorem claim_C3_dry_run_suppression
    (pmc : PMConfig) (bc : PobeConfig) (dc : PodConfig) (fc : PofbmConfig)
    (cc : PocsConfig) (oc : PoweroffConfig) (nc : PoweronConfig)
    (ec : PonenConfig) (xc : PofenConfig) (ac : AnConfig)
    (reach : Bool) (alive arp : List String) (cron : String)
    (mailbox : List MailMsg) (cr : Credits)
    (h1 : pmc.general.dry_run = true) (h2 : bc.dry_run = true)
    (h3 : dc.dry_run = true) (h4 : fc.dry_run = true)
    (h6 : oc.dry_run = true) (h7 : nc.dry_run = true)
    (h8 : ec.dry_run = true) (h9 : xc.dry_run = true)
    (h10 : ac.dry_run = true) :
    ((pmPowerOn pmc reach).1).wol = [] ∧
    (pmPowerOn pmc reach).2 = false ∧
    ((pmPowerOn pmc reach).1).probes =
      (if pmc.general.enabled then [(pmc.node.ip, pmc.node.port)] else []) ∧
    ((pmPowerOff pmc reach cron).1).remote = [] ∧
    (pmPowerOff pmc reach cron).2.1 = cron ∧
    ((pmPowerOff pmc reach cron).1).probes =
      (if pmc.general.enabled then [(pmc.node.ip, pmc.node.port)] else []) ∧
    ((pmPowerOnFromMail pmc mailbox).1).wol = [] ∧
    ((pmPowerOnFromMail pmc mailbox).1).remote = [] ∧
    ((pmPowerOffFromMail pmc reach cron mailbox).1).wol = [] ∧
    ((pmPowerOffFromMail pmc reach cron mailbox).1).remote = [] ∧
    (pmPowerOffFromMail pmc reach cron mailbox).2.1 = cron ∧
    ((pmExtendShutdownFromMail pmc cron mailbox).1).wol = [] ∧
    ((pmExtendShutdownFromMail pmc cron mailbox).1).remote = [] ∧
    (pmPowerOnExtraNodes pmc reach alive).wol = [] ∧
    (pmPowerOffExtraNodes pmc reach alive).remote = [] ∧
    ((pobeRun bc reach cr mailbox).eff).wol = [] ∧
    ((pobeRun bc reach cr mailbox).eff).remote = [] ∧
    ((podRun dc reach cron mailbox).1).wol = [] ∧
    ((podRun dc reach cron mailbox).1).remote = [] ∧
    ((podRun dc reach cron mailbox).2.1).1 = cron ∧
    ((pofbmRun fc reach cron mailbox).1).wol = [] ∧
    ((pofbmRun fc reach cron mailbox).1).remote = [] ∧
    ((pocsRun cc reach cron mailbox).1).wol = [] ∧
    ((pocsRun cc reach cron mailbox).1).remote = [] ∧
    (pocsRun cc reach cron mailbox).2.1 = cron ∧
    ((poweroffRun oc reach cron).1).remote = [] ∧
    ((poweroffRun oc reach cron).1).probes =
      (if oc.enabled then [(oc.nodeip, oc.nodeport)] else []) ∧
    (poweronRun nc reach).wol = [] ∧
    (poweronRun nc reach).probes =
      (if nc.enabled then [(nc.nodeip, nc.nodeport)] else []) ∧
    ((ponenRun ec reach alive).1).wol = [] ∧
    ((pofenRun xc reach alive).1).remote = [] ∧
    ((anRun ac reach arp).1).wol = [] :=
  ⟨(pmPowerOn_dry pmc reach h1).1, (pmPowerOn_dry pmc reach h1).2.1,
   (pmPowerOn_dry pmc reach h1).2.2,
   (pmPowerOff_dry pmc reach cron h1).1, (pmPowerOff_dry pmc reach cron h1).2.1,
   (pmPowerOff_dry pmc reach cron h1).2.2,
   (pmPowerOnFromMail_effects pmc mailbox).1,
   (pmPowerOnFromMail_effects pmc mailbox).2,
   (pmPowerOffFromMail_dry pmc reach cron mailbox h1).1,
   (pmPowerOffFromMail_dry pmc reach cron mailbox h1).2.1,
   (pmPowerOffFromMail_dry pmc reach cron mailbox h1).2.2,
   (pmExtendShutdownFromMail_effects pmc cron mailbox).1,
   (pmExtendShutdownFromMail_effects pmc cron mailbox).2,
   pmPowerOnExtraNodes_dry pmc reach alive h1,
   pmPowerOffExtraNodes_dry pmc reach alive h1,
   (pobeRun_dry bc reach cr mailbox h2).1,
   (pobeRun_dry bc reach cr mailbox h2).2,
   (podRun_dry dc reach cron mailbox h3).1,
   (podRun_dry dc reach cron mailbox h3).2.1,
   (podRun_dry dc reach cron mailbox h3).2.2,
   (pofbmRun_dry fc reach cron mailbox h4).1,
   (pofbmRun_dry fc reach cron mailbox h4).2,
   (pocsRun_effects cc reach cron mailbox).1,
   (pocsRun_effects cc reach cron mailbox).2.1,
   (pocsRun_effects cc reach cron mailbox).2.2,
   (poweroffRun_dry_remote oc reach cron h6).1,
   (poweroffRun_dry_remote oc reach cron h6).2,
   (poweronRun_dry nc reach h7).1,
   (poweronRun_dry nc reach h7).2,
   ponenRun_dry ec reach alive h8,
   pofenRun_dry xc reach alive h9,
   anRun_dry ac reach arp h10⟩

/-- C3 witness at concrete dry-run configurations. -/
theorem claim_C3_dry_run_suppression_witness :
    (pmSample true true).general.dry_run = true ∧
    (pobeSample true true).dry_run = true ∧
    (podSample true true).dry_run = true ∧
    (pofbmSample true true).dry_run = true ∧
    (poweroffSample true true).dry_run = true ∧
    (poweronSample true true).dry_run = true ∧
    (ponenSample true true).dry_run = true ∧
    (pofenSample true true).dry_run = true ∧
    (anSample true true).dry_run = true ∧
    ((pmPowerOn (pmSample true true) false).1).wol = [] :=
  ⟨rfl, rfl, rfl, rfl, rfl, rfl, rfl, rfl, rfl,
   (claim_C3_dry_run_suppression (pmSample true true) (pobeSample true true)
     (podSample true true) (pofbmSample true true) (pocsSample true true)
     (poweroffSample true true) (poweronSample true true)
     (ponenSample true true) (pofenSample true true) (anSample true true)
     false [] [] cronSample [msgWake, msgDelay, msgSleep] []
     rfl rfl rfl rfl rfl rfl rfl rfl rfl).1⟩

/-- C4: in `poweronbymail.py` the dispatch guard is
`credits.get(sender, 0) != 0`, a string-to-integer comparison that is
always true for a present ledger entry: a sender whose remaining credit is
the string `"0"` still receives the magic packet, while the reply e-mail
simultaneously reports that the credits are exhausted.  The
positive-credit and unlimited-credit conjuncts behave as the claim says
(decrement by one and persist, resp. unchanged). -/
theorem claim_C4_zero_credit_sends_packet :
    pobeRun (pobeSample true false) false [("alice@example.com", "0")] [msgWake] =
      { eff := { wol := ["aa-bb-cc-dd-ee-ff"], remote := [],
                 mails := [("alice@example.com", pobeBodyNoCredits "server")],
                 pushes := ["PowerOnByEmail - WOL command sent by alice@example.com\n"],
                 probes := [("10.0.0.2", 80)], pings := [], deleted := [1] },
        credits := [("alice@example.com", "0")], crashed := false,
        saved := some [("alice@example.com", "0")] } ∧
    pobeBodyNoCredits "server" =
      "Hi,\n\n server wordt niet aangezet, je credits zijn op.\n\nFijne dag!\n\n" ∧
    (pobeRun (pobeSample true false) false [("alice@example.com", "2")] [msgWake]).saved =
      some [("alice@example.com", "1")] ∧
    ((pobeRun (pobeSample true false) false [("alice@example.com", "2")] [msgWake]).eff).wol =
      ["aa-bb-cc-dd-ee-ff"] ∧
    (pobeRun (pobeSample true false) false [("alice@example.com", "-1")] [msgWake]).credits =
      [("alice@example.com", "-1")] ∧
    ((pobeRun (pobeSample true false) false [("alice@example.com", "-1")] [msgWake]).eff).wol =
      ["aa-bb-cc-dd-ee-ff"] :=
  ⟨rfl, rfl, rfl, rfl, rfl, rfl⟩



/-- C5: an unparsable hour field does not make
`PowerManager._extend_cron_schedule` return `None` — `int(hours[0])`
raises an uncaught `ValueError` (modelled by `.error`), which propagates
out of `extend_shutdown_from_mail`, so no failure reply is sent either. -/
theorem claim_C5_counterexample :
    pmExtendCron esSample 2 "45 XX * * * /usr/bin/python3 /app/poweroff.py" =
      .error () ∧
    pmExtendMsgStep (pmSample true false) esSample 1
      "45 XX * * * /usr/bin/python3 /app/poweroff.py" msgDelay =
      (Effects.nil, "45 XX * * * /usr/bin/python3 /app/poweroff.py", true) :=
  ⟨rfl, rfl⟩

/-- C5 (amended): when no line of the schedule file contains
`poweroff.py`, `_extend_cron_schedule` returns `None`, the file is
rewritten with its lines unchanged, and the caller replies with the
extension-failure body instead of a shutdown time; a located line whose
hour field does not parse instead raises an uncaught exception. -/
theorem claim_C5_no_schedule_line (cfg : PMConfig) (es : ExtendSettings)
    (e : Int) (cron : String) (i : Nat) (m : MailMsg) (s ehs : String)
    (h : ∀ l ∈ pySplitLinesOf cron, strContainsSub l "poweroff.py" = false)
    (hs : extractSender m.fromHeader = some s)
    (hsub : pyLower m.subject = pyLower es.keyword)
    (hall : s ∈ es.allowed_senders)
    (hehs : es.extend_hours = some ehs) (hehne : ehs ≠ "")
    (hehp : pyInt ehs = some e) :
    pmExtendCron es e cron = .ok (joinNl (pySplitLinesOf cron), none) ∧
    pmExtendMsgStep cfg es i cron m =
      ({ mails := [(s, pmExtendFailBody)] }, joinNl (pySplitLinesOf cron), false) := by
  have hx := pmExtendCron_nomatch es e cron h
  refine ⟨hx, ?_⟩
  unfold pmExtendMsgStep
  simp [hs, hsub, hall, hehs, hehne, hehp, hx]

/-- C5 witness: a crontab with no `poweroff.py` line. -/
theorem claim_C5_no_schedule_line_witness :
    (∀ l ∈ pySplitLinesOf "PATH=/bin\n0 3 * * * /usr/bin/backup.sh",
      strContainsSub l "poweroff.py" = false) ∧
    extractSender msgDelay.fromHeader = some "alice@example.com" ∧
    pmExtendMsgStep (pmSample true false) esSample 1
      "PATH=/bin\n0 3 * * * /usr/bin/backup.sh" msgDelay =
      ({ mails := [("alice@example.com", pmExtendFailBody)] },
       joinNl (pySplitLinesOf "PATH=/bin\n0 3 * * * /usr/bin/backup.sh"), false) :=
  ⟨by decide, rfl,
   (claim_C5_no_schedule_line (pmSample true false) esSample 2
     "PATH=/bin\n0 3 * * * /usr/bin/backup.sh" 1 msgDelay
     "alice@example.com" "2" (by decide) rfl rfl (by decide) rfl
     (by decide) rfl).2⟩

/-- C6: after every dispatched remote shutdown (cron-triggered
`PowerManager.power_off` / `poweroff.py`, mail-triggered
`_handle_power_off_request` / `poweroffbymail.py`), the schedule line is
reset: minute field to `defaultMinutes`, hour field to
`"{defaultHour},{maxHour}"`, so no extension survives a power cycle. -/
theorem claim_C6_reset_after_shutdown :
    (∀ (cfg : PMConfig) (reach : Bool) (cron : String) (es : ExtendSettings)
       (pre post rest : List String) (line p0 p1 : String),
      cfg.extend_settings = some es →
      pySplitLinesOf cron = pre ++ line :: post →
      (∀ l ∈ pre, strContainsSub l "poweroff.py" = false) →
      strContainsSub line "poweroff.py" = true →
      pySplitWs line = p0 :: p1 :: rest →
      ((pmPowerOff cfg reach cron).1).remote ≠ [] →
        (pmPowerOff cfg reach cron).2.1 =
          joinNl (pre ++ joinSpace (es.default_minutes ::
            (es.default_hour ++ "," ++ es.max_hour) :: rest) :: post) ∧
        (pmPowerOff cfg reach cron).2.2 = false) ∧
    (∀ (cfg : PMConfig) (reach : Bool) (cron sender : String)
       (es : ExtendSettings) (pre post rest : List String) (line p0 p1 : String),
      cfg.extend_settings = some es →
      pySplitLinesOf cron = pre ++ line :: post →
      (∀ l ∈ pre, strContainsSub l "poweroff.py" = false) →
      strContainsSub line "poweroff.py" = true →
      pySplitWs line = p0 :: p1 :: rest →
      ((pmHandlePowerOffRequest cfg reach cron sender).1).remote ≠ [] →
        (pmHandlePowerOffRequest cfg reach cron sender).2.1 =
          joinNl (pre ++ joinSpace (es.default_minutes ::
            (es.default_hour ++ "," ++ es.max_hour) :: rest) :: post) ∧
        (pmHandlePowerOffRequest cfg reach cron sender).2.2 = false) ∧
    (∀ (cfg : PoweroffConfig) (reach : Bool) (cron : String)
       (pre post rest : List String) (line p0 p1 : String),
      splitNl cron = pre ++ line :: post →
      (∀ l ∈ pre, strContainsSub l "poweroff.py" = false) →
      strContainsSub line "poweroff.py" = true →
      pySplitWs line = p0 :: p1 :: rest →
      ((poweroffRun cfg reach cron).1).remote ≠ [] →
        (poweroffRun cfg reach cron).2.1 =
          joinNl (pre ++ joinSpace (cfg.defaultminutes ::
            (cfg.defaulthour ++ "," ++ cfg.maxhour) :: rest) :: post) ∧
        (poweroffRun cfg reach cron).2.2 = false) ∧
    (∀ (cfg : PofbmConfig) (reach : Bool) (i : Nat) (cron : String)
       (m : MailMsg) (pre post rest : List String) (line p0 p1 : String),
      splitNl cron = pre ++ line :: post →
      (∀ l ∈ pre, strContainsSub l "poweroff.py" = false) →
      strContainsSub line "poweroff.py" = true →
      pySplitWs line = p0 :: p1 :: rest →
      ((pofbmStep cfg reach i cron m).1).remote ≠ [] →
        (pofbmStep cfg reach i cron m).2.1 =
          joinNl (pre ++ joinSpace (cfg.defaultminutes ::
            (cfg.defaulthour ++ "," ++ cfg.maxhour) :: rest) :: post) ∧
        (pofbmStep cfg reach i cron m).2.2 = false) :=
  ⟨fun cfg reach cron es pre post rest line p0 p1 hes hl hp hc hs =>
     pmPowerOff_reset cfg reach cron es pre post rest line p0 p1 hes hl hp hc hs,
   fun cfg reach cron sender es pre post rest line p0 p1 hes hl hp hc hs =>
     pmHandlePowerOffRequest_reset cfg reach cron sender es pre post rest line p0 p1
       hes hl hp hc hs,
   fun cfg reach cron pre post rest line p0 p1 hl hp hc hs =>
     poweroffRun_reset cfg reach cron pre post rest line p0 p1 hl hp hc hs,
   fun cfg reach i cron m pre post rest line p0 p1 hl hp hc hs =>
     pofbmStep_reset cfg reach i cron m pre post rest line p0 p1 hl hp hc hs⟩

/-- C6 witness: an extended schedule (`45 9,23`) is reset to
`30 7,23` after the cron-triggered shutdown dispatches. -/
theorem claim_C6_reset_after_shutdown_witness :
    (pmSample true false).extend_settings = some esSample ∧
    pySplitLinesOf cronSample = [] ++ cronSample :: [] ∧
    strContainsSub cronSample "poweroff.py" = true ∧
    pySplitWs cronSample =
      "45" :: "9,23" :: ["*", "*", "*", "/usr/bin/python3", "/app/poweroff.py"] ∧
    ((pmPowerOff (pmSample true false) true cronSample).1).remote =
      [("10.0.0.2", "halt")] ∧
    (pmPowerOff (pmSample true false) true cronSample).2.1 =
      "30 7,23 * * * /usr/bin/python3 /app/poweroff.py" :=
  ⟨rfl, rfl, rfl, rfl, rfl,
   (((claim_C6_reset_after_shutdown).1 (pmSample true false) true cronSample
     esSample [] [] ["*", "*", "*", "/usr/bin/python3", "/app/poweroff.py"]
     cronSample "45" "9,23" rfl rfl (by simp) rfl rfl
     (by decide)).1).trans (by rfl)⟩

/-- C8: in `poweronbymail.py` the deletion mark sits at keyword level,
outside the authorization check: a keyword-matching message from a sender
who is not in `allowedSenders` is still marked `\Deleted` (and expunged
at the end of the run) whenever the run is not a dry run. -/
theorem claim_C8_counterexample :
    extractSender "Mallory <mallory@evil.com>" = some "mallory@evil.com" ∧
    ("mallory@evil.com" ∈ (pobeSample true false).allowed_senders) = False ∧
    ((pobeRun (pobeSample true false) false [("alice@example.com", "2")]
      [{ subject := "wakeup", fromHeader := "Mallory <mallory@evil.com>" }]).eff).deleted =
      [1] ∧
    ((pobeRun (pobeSample true false) false [("alice@example.com", "2")]
      [{ subject := "wakeup", fromHeader := "Mallory <mallory@evil.com>" }]).eff).wol =
      [] :=
  ⟨rfl, by simp [pobeSample], rfl, rfl⟩

/-- C8 (amended): a keyword-matching message from an unauthorized sender
triggers no probe-gated side effect anywhere — no magic packet, remote
command, reply mail, push or schedule change, and the ledger is unchanged
— but the legacy mail scripts still mark the message for deletion unless
in dry-run, while the consolidated `PowerManager` flows leave it
undeleted. -/
theorem claim_C8_unauthorized_sender :
    (∀ (cfg : PobeConfig) (reach : Bool) (i : Nat) (cr : Credits)
       (m : MailMsg) (s : String),
      pyLower m.subject = pyLower cfg.keyword →
      extractSender m.fromHeader = some s →
      s ∉ cfg.allowed_senders →
      pobeStep cfg reach i cr m =
        ((if cfg.dry_run then Effects.nil else { deleted := [i] }), cr, false)) ∧
    (∀ (cfg : PodConfig) (reach : Bool) (i : Nat) (st : String × String)
       (m : MailMsg) (s : String),
      pyLower m.subject = pyLower cfg.keyword →
      extractSender m.fromHeader = some s →
      s ∉ cfg.allowed_senders →
      podStep cfg reach i st m =
        ((if cfg.dry_run then Effects.nil else { deleted := [i] }), st, false)) ∧
    (∀ (cfg : PofbmConfig) (reach : Bool) (i : Nat) (cron : String)
       (m : MailMsg) (s : String),
      pyLower m.subject = pyLower cfg.keyword →
      extractSender m.fromHeader = some s →
      s ∉ cfg.allowed_senders →
      pofbmStep cfg reach i cron m =
        ((if cfg.dry_run then Effects.nil else { deleted := [i] }), cron, false)) ∧
    (∀ (cfg : PMConfig) (pos : PowerOffSettings) (reach : Bool) (i : Nat)
       (cron : String) (m : MailMsg) (s : String) (l : List String) (kw : String),
      pos.keyword = some kw → pyLower m.subject = pyLower kw →
      extractSender m.fromHeader = some s →
      pos.allowed_senders = some l → l ≠ [] → s ∉ l →
      pmPowerOffMsgStep cfg pos reach i cron m = (Effects.nil, cron, false)) ∧
    (∀ (cfg : PMConfig) (pon : PowerOnSettings) (i : Nat) (st : Unit)
       (m : MailMsg) (s : String),
      pyLower m.subject = pyLower pon.keyword →
      extractSender m.fromHeader = some s →
      s ∉ pon.allowed_senders →
      pmPowerOnMsgStep cfg pon i st m = (Effects.nil, st, false)) :=
  ⟨fun cfg reach i cr m s h1 h2 h3 => pobeStep_unauthorized cfg reach i cr m s h1 h2 h3,
   fun cfg reach i st m s h1 h2 h3 => podStep_unauthorized cfg reach i st m s h1 h2 h3,
   fun cfg reach i cron m s h1 h2 h3 =>
     pofbmStep_unauthorized cfg reach i cron m s h1 h2 h3,
   fun cfg pos reach i cron m s l kw h1 h2 h3 h4 h5 h6 =>
     pmPowerOffMsgStep_unauthorized cfg pos reach i cron m s l kw h1 h2 h3 h4 h5 h6,
   fun cfg pon i st m s h1 h2 h3 =>
     pmPowerOnMsgStep_unauthorized cfg pon i st m s h1 h2 h3⟩

/-- C8 witness: an unauthorized sender at a matching subject. -/
theorem claim_C8_unauthorized_sender_witness :
    pyLower "wakeup" = pyLower (pobeSample true false).keyword ∧
    extractSender "Mallory <mallory@evil.com>" = some "mallory@evil.com" ∧
    ("mallory@evil.com" ∉ (pobeSample true false).allowed_senders) ∧
    pobeStep (pobeSample true false) true 1 [("alice@example.com", "2")]
      { subject := "wakeup", fromHeader := "Mallory <mallory@evil.com>" } =
      ((if (pobeSample true false).dry_run then Effects.nil
        else { deleted := [1] }), [("alice@example.com", "2")], false) :=
  ⟨rfl, rfl, by decide,
   (claim_C8_unauthorized_sender).1 (pobeSample true false) true 1
     [("alice@example.com", "2")]
     { subject := "wakeup", fromHeader := "Mallory <mallory@evil.com>" }
     "mallory@evil.com" rfl rfl (by decide)⟩



theorem getD_mem_of_lt {α : Type} (l : List α) (i : Nat) (d : α)
    (h : i < l.length) : l.getD i d ∈ l := by
  induction l generalizing i with
  | nil => simp at h
  | cons a t ih =>
      cases i with
      | zero => simp [List.getD]
      | succ j =>
          have hj : j < t.length := by simpa using h
          have := ih j hj
          simp only [List.getD] at this ⊢
          simp only [List.get?] at this ⊢
          exact List.mem_cons_of_mem a this

theorem buildExtraNode_spec (ips macs sshPorts users passwords : List String)
    (hssh : ∀ s ∈ sshPorts, (pyInt s).isSome) (index : Nat) (name : String) :
    ∃ node, buildExtraNode ips macs sshPorts users passwords index name = some node ∧
      node.name = name ∧
      node.ip = (if index < ips.length then ips.getD index "" else "") ∧
      node.mac = (if index < macs.length then macs.getD index "" else "") ∧
      (sshPorts.length ≤ index → node.ssh_port = none) ∧
      node.user = (if index < users.length then some (users.getD index "") else none) ∧
      (passwords.length ≤ index → node.password = none) := by
  by_cases h : index < sshPorts.length ∧ sshPorts.getD index "" ≠ ""
  · obtain ⟨n, hn⟩ :=
      Option.isSome_iff_exists.mp (hssh _ (getD_mem_of_lt sshPorts index "" h.1))
    refine ⟨{ name := name,
              ip := if index < ips.length then ips.getD index "" else "",
              mac := if index < macs.length then macs.getD index "" else "",
              ssh_port := some n,
              user := if index < users.length then some (users.getD index "") else none,
              password :=
                if index < passwords.length ∧ passwords.getD index "" ≠ "" then
                  some (passwords.getD index "")
                else none }, ?_, rfl, rfl, rfl, ?_, rfl, ?_⟩
    · unfold buildExtraNode
      simp only [if_pos h.1]
      rw [if_pos (⟨h.1, h.2⟩ : _ ∧ _), hn]
    · intro hle; exact absurd h.1 (by omega)
    · intro hle
      show (if index < passwords.length ∧ passwords.getD index "" ≠ "" then
              some (passwords.getD index "") else none) = none
      rw [if_neg]
      rintro ⟨hlt, -⟩
      omega
  · refine ⟨{ name := name,
              ip := if index < ips.length then ips.getD index "" else "",
              mac := if index < macs.length then macs.getD index "" else "",
              ssh_port := none,
              user := if index < users.length then some (users.getD index "") else none,
              password :=
                if index < passwords.length ∧ passwords.getD index "" ≠ "" then
                  some (passwords.getD index "")
                else none }, ?_, rfl, rfl, rfl, fun _ => rfl, rfl, ?_⟩
    · unfold buildExtraNode
      have hcond : ¬(index < sshPorts.length ∧
          (if index < sshPorts.length then sshPorts.getD index "" else "") ≠ "") := by
        rintro ⟨hlt, hne⟩
        exact h ⟨hlt, by simpa [hlt] using hne⟩
      simp only [if_neg hcond]
    · intro hle
      show (if index < passwords.length ∧ passwords.getD index "" ≠ "" then
              some (passwords.getD index "") else none) = none
      rw [if_neg]
      rintro ⟨hlt, -⟩
      omega

theorem buildExtraNodes_spec (ips macs sshPorts users passwords : List String)
    (hssh : ∀ s ∈ sshPorts, (pyInt s).isSome) :
    ∀ (names : List String) (start : Nat),
      ∃ nodes, buildExtraNodes ips macs sshPorts users passwords start names = some nodes ∧
        nodes.length = names.length ∧
        ∀ k, k < names.length →
          ∃ node, nodes.get? k = some node ∧
            node.name = names.getD k "" ∧
            node.ip = (if start + k < ips.length then ips.getD (start + k) "" else "") ∧
            node.mac = (if start + k < macs.length then macs.getD (start + k) "" else "") ∧
            (sshPorts.length ≤ start + k → node.ssh_port = none) ∧
            node.user =
              (if start + k < users.length then some (users.getD (start + k) "") else none) ∧
            (passwords.length ≤ start + k → node.password = none) := by
  intro names
  induction names with
  | nil =>
      intro start
      exact ⟨[], rfl, rfl, fun k hk => by simp at hk⟩
  | cons name rest ih =>
      intro start
      obtain ⟨node, hnode, hname, hip, hmac, hsshp, huser, hpwd⟩ :=
        buildExtraNode_spec ips macs sshPorts users passwords hssh start name
      obtain ⟨nodes, hnodes, hlen, hall⟩ := ih (start + 1)
      refine ⟨node :: nodes, ?_, by simp [hlen], ?_⟩
      · unfold buildExtraNodes
        rw [hnode, hnodes]
      · intro k hk
        cases k with
        | zero =>
            refine ⟨node, rfl, ?_⟩
            simp only [Nat.add_zero, List.getD_cons_zero]
            exact ⟨hname, hip, hmac, hsshp, huser, hpwd⟩
        | succ j =>
            obtain ⟨nd, hget, hp⟩ := hall j (by simpa using hk)
            refine ⟨nd, by simpa only [List.get?_cons_succ] using hget, ?_⟩
            have hidx : start + 1 + j = start + (j + 1) := by omega
            rw [hidx] at hp
            simpa only [List.getD_cons_succ] using hp

/-- C10: building the `[EXTRANODES]` collection never fails on unequal
list lengths: exactly one `ExtraNode` per name, with `""` substituted for
a missing ip or mac and `None` for a missing ssh port, user or password
(the only failure mode is a non-numeric ssh-port entry, excluded by the
hypothesis). -/
theorem claim_C10_extranodes_loading
    (namesStr ipsStr macsStr sshStr usersStr pwdsStr : String)
    (hssh : ∀ s ∈ splitCsv sshStr, (pyInt s).isSome) :
    ∃ nodes, loadExtraNodes namesStr ipsStr macsStr sshStr usersStr pwdsStr = some nodes ∧
      nodes.length = (splitCsv namesStr).length ∧
      ∀ k, k < (splitCsv namesStr).length →
        ∃ node, nodes.get? k = some node ∧
          node.name = (splitCsv namesStr).getD k "" ∧
          node.ip =
            (if k < (splitCsv ipsStr).length then (splitCsv ipsStr).getD k "" else "") ∧
          node.mac =
            (if k < (splitCsv macsStr).length then (splitCsv macsStr).getD k "" else "") ∧
          ((splitCsv sshStr).length ≤ k → node.ssh_port = none) ∧
          node.user =
            (if k < (splitCsv usersStr).length then
              some ((splitCsv usersStr).getD k "") else none) ∧
          ((splitCsv pwdsStr).length ≤ k → node.password = none) := by
  obtain ⟨nodes, h1, h2, h3⟩ :=
    buildExtraNodes_spec (splitCsv ipsStr) (splitCsv macsStr) (splitCsv sshStr)
      (splitCsv usersStr) (splitCsv pwdsStr) hssh (splitCsv namesStr) 0
  exact ⟨nodes, h1, h2, fun k hk => by simpa only [Nat.zero_add] using h3 k hk⟩

/-- C10 witness: three names against shorter parallel lists. -/
theorem claim_C10_extranodes_loading_witness :
    (∀ s ∈ splitCsv "22", (pyInt s).isSome) ∧
    loadExtraNodes "a,b,c" "10.0.0.1" "m1,m2" "22" "" "pw1" = some
      [{ name := "a", ip := "10.0.0.1", mac := "m1", ssh_port := some 22,
         user := none, password := some "pw1" },
       { name := "b", ip := "", mac := "m2", ssh_port := none,
         user := none, password := none },
       { name := "c", ip := "", mac := "", ssh_port := none,
         user := none, password := none }] ∧
    (∃ nodes, loadExtraNodes "a,b,c" "10.0.0.1" "m1,m2" "22" "" "pw1" = some nodes ∧
      nodes.length = (splitCsv "a,b,c").length ∧
      ∀ k, k < (splitCsv "a,b,c").length →
        ∃ node, nodes.get? k = some node ∧
          node.name = (splitCsv "a,b,c").getD k "" ∧
          node.ip =
            (if k < (splitCsv "10.0.0.1").length then
              (splitCsv "10.0.0.1").getD k "" else "") ∧
          node.mac =
            (if k < (splitCsv "m1,m2").length then (splitCsv "m1,m2").getD k "" else "") ∧
          ((splitCsv "22").length ≤ k → node.ssh_port = none) ∧
          node.user =
            (if k < (splitCsv "").length then some ((splitCsv "").getD k "") else none) ∧
          ((splitCsv "pw1").length ≤ k → node.password = none)) :=
  ⟨by decide, rfl,
   claim_C10_extranodes_loading "a,b,c" "10.0.0.1" "m1,m2" "22" "" "pw1" (by decide)⟩



/-- C9: `PowerManager` skips a message without an extractable sender, but
`POBE.run` (`poweronbymail.py`) evaluates `match.group(0)` inside a log
f-string before checking for `None`: a keyword-matching message whose
From header holds no `local@domain` address raises `AttributeError`,
aborting the whole batch — the following valid message is not processed
and nothing is deleted or persisted. -/
theorem claim_C9_sender_extraction_crash :
    extractSender msgNoSender.fromHeader = none ∧
    pobeRun (pobeSample true false) false [("alice@example.com", "3")]
      [msgNoSender, msgWake] =
      { eff := Effects.nil, credits := [("alice@example.com", "3")],
        crashed := true, saved := none } ∧
    ((pobeRun (pobeSample true false) false [("alice@example.com", "3")]
      [msgWake]).eff).wol = ["aa-bb-cc-dd-ee-ff"] ∧
    pmPowerOnMsgStep (pmSample true false) ponSample 1 () msgNoSender =
      (Effects.nil, (), false) ∧
    pmPowerOffMsgStep (pmSample true false) posSample true 1 cronSample
      msgNoSender = (Effects.nil, cronSample, false) :=
  ⟨rfl, rfl, rfl, rfl, rfl⟩


end PowerOn
